import Mathlib

/-!
Verification development for the SVG particle generator
(`src/script.js` of enricodeia/svg-generator-particles).

The file shallowly embeds the engine's core routines:

* the point-selection pipeline `samplePoints` (script.js:1607-1675) and the
  representation choice in `createParticles` (script.js:1578-1602), over
  abstract point types with the `Math.random()` index draws supplied by
  explicit random-number streams and a fuel bound for the
  sample-without-replacement loops;
* the per-frame motion model `updateTraditionalParticles`
  (script.js:2157-2312) and `updateInstancedParticles` (script.js:1970-2152),
  per particle, over `ℝ`-valued 3-vectors, with the coherent-noise function
  `state.simplex.noise3D` supplied as an oracle parameter;
* the sample-point construction of `createParticlesFromSVGString`
  (script.js:1423-1431) and the checkbox reads of `getSettings`
  (script.js:2382-2460).

JavaScript numbers are modelled as real numbers; `Math.random()` draws and
the simplex-noise evaluations are oracle parameters, so every theorem
quantifies over them.
-/

namespace SvgGen

/-- A point selected by `samplePoints` (script.js:1612-1617): the underlying
point, the stroke flag, and the (possibly absent) captured color. -/
structure SampledPoint (α γ : Type) where
  point : α
  isStroke : Bool
  color : Option γ
deriving DecidableEq

/-- The body of the sampling loops of `samplePoints`
(script.js:1627-1630, 1643-1646, 1659-1662):
`while (indices.size < target) indices.add(Math.floor(Math.random() * len))`.
The JS `Set` is modelled as a duplicate-free list (`List.insert` is a no-op
on a present element, exactly like `Set.add`); `rng f % len` stands for the
`f`-th draw `Math.floor(Math.random() * len)`; `fuel` bounds the number of
loop iterations, and the loop answers `none` when the fuel runs out before
the target size is reached. -/
def sampleIndicesGo (rng : ℕ → ℕ) (len target : ℕ) : ℕ → List ℕ → Option (List ℕ)
  | 0, s => if target ≤ s.length then some s else none
  | fuel + 1, s =>
    if target ≤ s.length then some s
    else sampleIndicesGo rng len target fuel (s.insert (rng fuel % len))

/-- A full sampling loop guarded by `Math.min(count, len)`
(script.js:1628, 1644). -/
def sampleIndices (rng : ℕ → ℕ) (len count fuel : ℕ) : Option (List ℕ) :=
  sampleIndicesGo rng len (min count len) fuel []

/-- Shallow embedding of `samplePoints` (script.js:1607-1675).  `points`,
`strokePoints`, `fillPoints` and the three color arrays are the arguments of
the JS function; `rngS`, `rngF`, `rngU` are the random streams consumed by
the stroke, fill and fallback sampling loops.  Answers `none` exactly when
one of the sampling loops exhausts its fuel. -/
def samplePoints [DecidableEq α] [Inhabited α] (rngS rngF rngU : ℕ → ℕ) (fuel : ℕ)
    (points strokePoints fillPoints : List α) (targetCount : ℕ)
    (colors strokeColors fillColors : Option (List γ)) :
    Option (List (SampledPoint α γ)) :=
  if points.length ≤ targetCount then
    some (points.enum.map (fun q =>
      ⟨q.2, decide (q.2 ∈ strokePoints), colors.bind (fun cs => cs[q.1]?)⟩))
  else
    let strokeCount := targetCount * strokePoints.length / points.length
    let fillCount := targetCount - strokeCount
    let strokeSampled : Option (List (SampledPoint α γ)) :=
      if 0 < strokePoints.length then
        (sampleIndices rngS strokePoints.length strokeCount fuel).map
          (fun s => s.map (fun i =>
            ⟨strokePoints.getD i default, true, strokeColors.bind (fun cs => cs[i]?)⟩))
      else some []
    let fillSampled : Option (List (SampledPoint α γ)) :=
      if 0 < fillPoints.length then
        (sampleIndices rngF fillPoints.length fillCount fuel).map
          (fun s => s.map (fun i =>
            ⟨fillPoints.getD i default, false, fillColors.bind (fun cs => cs[i]?)⟩))
      else some []
    strokeSampled.bind (fun ss => fillSampled.bind (fun fs =>
      let sampled := ss ++ fs
      if sampled.length = 0 then
        (sampleIndicesGo rngU points.length targetCount fuel []).map
          (fun s => s.map (fun i =>
            ⟨points.getD i default, false, colors.bind (fun cs => cs[i]?)⟩))
      else some sampled))

/-- The two particle-building strategies of `createParticles`
(script.js:1587-1591). -/
inductive Representation where
  | batched
  | perObject
deriving DecidableEq

/-- Result record of `createParticles` (script.js:1578-1602):
the chosen representation, the sampled points, and the particle count
stored on the layer (script.js:1597). -/
structure CreateResult (α γ : Type) where
  representation : Representation
  sampled : Option (List (SampledPoint α γ))
  particleCount : Option ℕ
deriving DecidableEq

/-- Shallow embedding of `createParticles` (script.js:1578-1602).  The
representation test is `layer.useInstanced && points.length > 500`
(script.js:1581), evaluated on the **candidate** list `points`, before
`samplePoints` selects the target-count subset (script.js:1584). -/
def createParticles [DecidableEq α] [Inhabited α] (rngS rngF rngU : ℕ → ℕ) (fuel : ℕ)
    (layerUseInstanced : Bool) (points strokePoints fillPoints : List α)
    (particleCount : ℕ) (colors strokeColors fillColors : Option (List γ)) :
    CreateResult α γ :=
  let useInstanced := layerUseInstanced && decide (500 < points.length)
  let sampled := samplePoints rngS rngF rngU fuel points strokePoints fillPoints
    particleCount colors strokeColors fillColors
  { representation := if useInstanced then Representation.batched else Representation.perObject
    sampled := sampled
    particleCount := sampled.map List.length }

/-! The settings reader (claim C9).  `getSettings` (script.js:2382-2460)
reads each checkbox as `document.getElementById(id)?.checked || dflt`.
A missing element yields `undefined`; a present element yields its boolean
`checked` state.  JavaScript `x || d` returns `x` when `x` is `true` and
`d` otherwise. -/

/-- The checkbox elements read by `getSettings`, each possibly absent. -/
structure CheckboxElements where
  useGradient : Option Bool
  preserveColors : Option Bool
  mouseInteraction : Option Bool
  sandEffect : Option Bool
  repelEffect : Option Bool
  glowEffect : Option Bool
  noiseMovement : Option Bool
  includeStrokes : Option Bool
  enableOrbit : Option Bool
  useInstancedRendering : Option Bool

/-- JavaScript `el?.checked || dflt` for a checkbox: `undefined || d = d`,
`true || d = true`, `false || d = d`. -/
def jsOrBool : Option Bool → Bool → Bool
  | some b, d => b || d
  | none, d => d

/-- The boolean fields of the settings snapshot returned by `getSettings`. -/
structure SettingsFlags where
  useGradient : Bool
  preserveColors : Bool
  mouseInteraction : Bool
  sandEffect : Bool
  repelEffect : Bool
  glowEffect : Bool
  noiseMovement : Bool
  includeStrokes : Bool
  enableOrbit : Bool
  useInstanced : Bool

/-- The checkbox reads of `getSettings` (script.js:2390, 2393, 2395-2396,
2399, 2403, 2407, 2409, 2412, 2418), with each element's default exactly as
in the source. -/
def getSettingsFlags (dom : CheckboxElements) : SettingsFlags :=
  { useGradient := jsOrBool dom.useGradient true
    preserveColors := jsOrBool dom.preserveColors false
    mouseInteraction := jsOrBool dom.mouseInteraction true
    sandEffect := jsOrBool dom.sandEffect false
    repelEffect := jsOrBool dom.repelEffect false
    glowEffect := jsOrBool dom.glowEffect true
    noiseMovement := jsOrBool dom.noiseMovement true
    includeStrokes := jsOrBool dom.includeStrokes true
    enableOrbit := jsOrBool dom.enableOrbit true
    useInstanced := jsOrBool dom.useInstancedRendering true }

/-! The per-frame motion model.  `THREE.Vector3` over real coordinates. -/

noncomputable section

/-- A `THREE.Vector3` with real coordinates. -/
@[ext]
structure Vec3 where
  x : ℝ
  y : ℝ
  z : ℝ

namespace Vec3

/-- The zero vector `new THREE.Vector3()`. -/
def zero : Vec3 := ⟨0, 0, 0⟩

/-- Componentwise `Vector3.add`. -/
def add (a b : Vec3) : Vec3 := ⟨a.x + b.x, a.y + b.y, a.z + b.z⟩

/-- Componentwise `Vector3.sub` / `subVectors`. -/
def sub (a b : Vec3) : Vec3 := ⟨a.x - b.x, a.y - b.y, a.z - b.z⟩

/-- `Vector3.multiplyScalar`. -/
def smul (v : Vec3) (r : ℝ) : Vec3 := ⟨v.x * r, v.y * r, v.z * r⟩

/-- `Vector3.length`: the Euclidean norm. -/
def length (v : Vec3) : ℝ := Real.sqrt (v.x * v.x + v.y * v.y + v.z * v.z)

/-- `Vector3.distanceTo`. -/
def distanceTo (a b : Vec3) : ℝ := (a.sub b).length

/-- `Vector3.normalize`: `divideScalar(length() || 1)`, i.e. multiplication
by the reciprocal of the length, with a zero length replaced by 1. -/
def normalize (v : Vec3) : Vec3 :=
  v.smul (1 / (if v.length = 0 then 1 else v.length))

end Vec3

/-- The per-particle animation state stored in `mesh.userData` by
`createTraditionalParticles` (script.js:1877-1897) and in the
`instanceMetadata` record by `createInstancedParticles`
(script.js:1794-1811).  `originalPosition` is optional to mirror the
defensive `particle.userData.originalPosition ? … : new THREE.Vector3()`
read at script.js:2178-2180 (creation always sets it). -/
structure ParticleData where
  originalPosition : Option Vec3
  offset : Vec3
  velocity : Vec3
  angle : ℝ
  speed : ℝ
  amplitude : ℝ
  noiseOffset : Vec3
  isStroke : Bool

/-- A renderable particle: its visibility flag, its current rendered
position (for the instanced path, the translation decomposed from the
instance matrix at script.js:1996-2003), and its animation state. -/
structure Particle where
  visible : Bool
  position : Vec3
  data : ParticleData

/-- The subset of the settings snapshot read by the per-frame update
functions. -/
structure UpdateSettings where
  noiseMovement : Bool
  animationSpeed : ℝ
  noiseScale : ℝ
  svgDepth : ℝ

/-- The remaining arguments of `updateTraditionalParticles` /
`updateInstancedParticles` together with the pieces of ambient state they
read: the pointer world position `state.mousePosition`, the layer's uniform
scale `layer.group.scale.x`, and the layer's stored original position for
this particle index, `layer.originalPositions[index]`. -/
structure UpdateArgs where
  time : ℝ
  mouseInteraction : Bool
  repelEffect : Bool
  interactionRadius : ℝ
  interactionStrength : ℝ
  sandEffect : Bool
  sandStrength : ℝ
  sandReturn : ℝ
  mousePosition : Vec3
  groupScaleX : ℝ
  originalPositionsEntry : Option Vec3

/-- Advance of the per-particle noise coordinate by
`0.002 * animationSpeed` on each axis (script.js:2185-2187, 2011-2013). -/
def advancedNoiseOffset (s : UpdateSettings) (n : Vec3) : Vec3 :=
  ⟨n.x + 0.002 * s.animationSpeed,
   n.y + 0.002 * s.animationSpeed,
   n.z + 0.002 * s.animationSpeed⟩

/-- The noise-mode displacement (script.js:2190-2212, 2016-2038), computed
at the already-advanced noise coordinate `n`: three 2-of-3-coordinate
evaluations of `simplex.noise3D`, scaled by `noiseScale*100` (x, y) and
`noiseScale*50` (z), with the z contribution suppressed when the depth
range is not positive. -/
def noiseModeOffset (noise3D : ℝ → ℝ → ℝ → ℝ) (s : UpdateSettings) (n : Vec3) : Vec3 :=
  ⟨noise3D n.x n.y 0 * s.noiseScale * 100,
   noise3D n.y n.z 0 * s.noiseScale * 100,
   noise3D n.z n.x 0 * s.noiseScale * 50 * (if 0 < s.svgDepth then 1 else 0)⟩

/-- The advanced oscillator phase `angle + speed * animationSpeed`
(script.js:2218, 2044). -/
def oscillatorAngle (s : UpdateSettings) (d : ParticleData) : ℝ :=
  d.angle + d.speed * s.animationSpeed

/-- The oscillator-mode displacement (script.js:2218-2233, 2044-2052),
computed at the advanced phase.  When the depth range is not positive the z
component of the stored offset is left unchanged (the code only assigns
`offset.z` inside `if (settings.svgDepth > 0)`). -/
def oscillatorOffset (s : UpdateSettings) (time : ℝ) (d : ParticleData) : Vec3 :=
  ⟨Real.sin (oscillatorAngle s d + time) * d.amplitude,
   Real.cos (oscillatorAngle s d + time * 1.5) * d.amplitude,
   if 0 < s.svgDepth then Real.sin (oscillatorAngle s d + time * 0.7) * d.amplitude * 0.5
   else d.offset.z⟩

/-- The procedural displacement selected by the `noiseMovement` flag
(script.js:2183-2237, 2009-2056). -/
def proceduralOffset (noise3D : ℝ → ℝ → ℝ → ℝ) (s : UpdateSettings) (time : ℝ)
    (d : ParticleData) : Vec3 :=
  if s.noiseMovement then noiseModeOffset noise3D s (advancedNoiseOffset s d.noiseOffset)
  else oscillatorOffset s time d

/-- The value of the particle's stored `offset` after the frame: stroke
particles scale the freshly computed offset by 1.2 in place
(script.js:2240-2243, 2059-2062) — note this happens only after the offset
has already been added to the position. -/
def storedOffset (noise3D : ℝ → ℝ → ℝ → ℝ) (s : UpdateSettings) (time : ℝ)
    (d : ParticleData) : Vec3 :=
  if d.isStroke then (proceduralOffset noise3D s time d).smul 1.2
  else proceduralOffset noise3D s time d

/-- The particle's `angle` after the frame: advanced only in oscillator
mode. -/
def proceduralAngle (s : UpdateSettings) (d : ParticleData) : ℝ :=
  if s.noiseMovement then d.angle else oscillatorAngle s d

/-- The particle's noise coordinate after the frame: advanced only in noise
mode. -/
def proceduralNoiseOffset (s : UpdateSettings) (d : ParticleData) : Vec3 :=
  if s.noiseMovement then advancedNoiseOffset s d.noiseOffset else d.noiseOffset

/-- The pointer-force displacement `direction * force`
(script.js:2253-2263, 2073-2082), computed from the position `pos`:
`forceFactor = (R - dist)/R`, `force = strength * forceFactor`, direction
the normalised vector from the pointer to `pos`, where
`R = interactionRadius * layer.group.scale.x`. -/
def pointerDisplacement (a : UpdateArgs) (pos : Vec3) : Vec3 :=
  ((pos.sub a.mousePosition).normalize).smul
    (a.interactionStrength *
      ((a.interactionRadius * a.groupScaleX - pos.distanceTo a.mousePosition) /
        (a.interactionRadius * a.groupScaleX)))

/-- The frame position after the pointer-interaction block
(script.js:2246-2271, 2064-2090): the displacement is applied to `base`
(the procedurally displaced position), but the distance test and the
displacement itself are computed from `pos`, the particle's rendered
position at the start of the frame. -/
def positionAfterMouse (a : UpdateArgs) (pos base : Vec3) : Vec3 :=
  if a.mouseInteraction = true ∧ 0 < a.mousePosition.length then
    if pos.distanceTo a.mousePosition < a.interactionRadius * a.groupScaleX then
      if a.repelEffect = true then base.add (pointerDisplacement a pos)
      else base.sub (pointerDisplacement a pos)
    else base
  else base

/-- The particle velocity after the pointer-interaction block
(script.js:2273-2281, 2092-2099): in sand mode the pointer force, scaled by
`sandStrength * 0.1`, is accumulated into the velocity. -/
def velocityAfterMouse (a : UpdateArgs) (pos v : Vec3) : Vec3 :=
  if a.mouseInteraction = true ∧ 0 < a.mousePosition.length then
    if pos.distanceTo a.mousePosition < a.interactionRadius * a.groupScaleX then
      if a.sandEffect = true then
        if a.repelEffect = true then
          v.add ((pointerDisplacement a pos).smul (a.sandStrength * 0.1))
        else v.sub ((pointerDisplacement a pos).smul (a.sandStrength * 0.1))
      else v
    else v
  else v

/-- The spring-mode target (script.js:2287-2289, 2106-2108):
`layer.originalPositions[index]` plus the (stroke-scaled) stored offset,
falling back to the already computed frame position when the entry is
missing.  The pointer-force displacement is excluded. -/
def sandTarget (a : UpdateArgs) (storedOff fallbackPosition : Vec3) : Vec3 :=
  match a.originalPositionsEntry with
  | some o => o.add storedOff
  | none => fallbackPosition

/-- One particle step of `updateTraditionalParticles`
(script.js:2157-2312): procedural displacement from the original position,
pointer-force displacement, then (in sand mode) the damped-spring override
`velocity = 0.95 * (velocity + (target - position) * 0.05 * sandReturn)`,
`position = position + velocity` (script.js:2284-2303).  The decorative
rotation (script.js:2308-2310) does not affect positions and is not
modelled. -/
def updateTraditionalParticle (noise3D : ℝ → ℝ → ℝ → ℝ) (s : UpdateSettings)
    (a : UpdateArgs) (p : Particle) : Particle :=
  if p.visible = true then
    let off1 := proceduralOffset noise3D s a.time p.data
    let newPosition1 := (p.data.originalPosition.getD Vec3.zero).add off1
    let off2 := storedOffset noise3D s a.time p.data
    let newPosition2 := positionAfterMouse a p.position newPosition1
    let velocity1 := velocityAfterMouse a p.position p.data.velocity
    if a.sandEffect = true then
      let target := sandTarget a off2 newPosition2
      let returnForce := (target.sub p.position).smul (0.05 * a.sandReturn)
      let velocity2 := (velocity1.add returnForce).smul 0.95
      { visible := p.visible
        position := p.position.add velocity2
        data := { p.data with
                  offset := off2
                  velocity := velocity2
                  angle := proceduralAngle s p.data
                  noiseOffset := proceduralNoiseOffset s p.data } }
    else
      { visible := p.visible
        position := newPosition2
        data := { p.data with
                  offset := off2
                  velocity := velocity1
                  angle := proceduralAngle s p.data
                  noiseOffset := proceduralNoiseOffset s p.data } }
  else p

/-- One particle step of `updateInstancedParticles` (script.js:1970-2152);
`p.position` is the translation decomposed from the instance matrix
(script.js:1996-2003) and `p.visible` the mesh visibility guard
(script.js:1993).  The per-slot arithmetic (script.js:2006-2122) is the
same as in the traditional path; the matrix recomposition and batched
write-back (script.js:2124-2151) only commit the resulting position. -/
def updateInstancedParticle (noise3D : ℝ → ℝ → ℝ → ℝ) (s : UpdateSettings)
    (a : UpdateArgs) (p : Particle) : Particle :=
  if p.visible = true then
    let off1 := proceduralOffset noise3D s a.time p.data
    let newPosition1 := (p.data.originalPosition.getD Vec3.zero).add off1
    let off2 := storedOffset noise3D s a.time p.data
    let newPosition2 := positionAfterMouse a p.position newPosition1
    let velocity1 := velocityAfterMouse a p.position p.data.velocity
    if a.sandEffect = true then
      let target := sandTarget a off2 newPosition2
      let returnForce := (target.sub p.position).smul (0.05 * a.sandReturn)
      let velocity2 := (velocity1.add returnForce).smul 0.95
      { visible := p.visible
        position := p.position.add velocity2
        data := { p.data with
                  offset := off2
                  velocity := velocity2
                  angle := proceduralAngle s p.data
                  noiseOffset := proceduralNoiseOffset s p.data } }
    else
      { visible := p.visible
        position := newPosition2
        data := { p.data with
                  offset := off2
                  velocity := velocity1
                  angle := proceduralAngle s p.data
                  noiseOffset := proceduralNoiseOffset s p.data } }
  else p

/-- World position of a Sample Point produced by
`createParticlesFromSVGString` (script.js:1423-1431 for fill pixels,
1480-1489 for edge pixels): `depthFactor` stands for the `Math.random()`
draw, and the z coordinate is `(depthFactor - 0.5) * 2 * svgDepth` when the
depth range is positive and `0` otherwise. -/
def samplePointPosition (canvasWidth canvasHeight x y svgDepth depthFactor : ℝ) : Vec3 :=
  ⟨(x - canvasWidth / 2) * 0.1,
   -(y - canvasHeight / 2) * 0.1,
   if 0 < svgDepth then (depthFactor - 0.5) * 2 * svgDepth else 0⟩

/-- The pointer position written by `clearMousePosition`
(script.js:565-568) when the cursor leaves the canvas. -/
def clearedMousePosition : Vec3 := ⟨0, 0, 0⟩

/-- Quadratic Lyapunov form for the spring ("sand") recurrence with
`sandReturn = 1`: it contracts by exactly 19/20 at each frame. -/
def lyap (e v : ℝ) : ℝ := (e + v / 38) ^ 2 + (28879 / 1444) * v ^ 2

/-- Spec-side definition for claim C3, following the spec's words (§4.4
step 2): the pointer-force displacement computed from the particle's *base*
position (origin plus procedural displacement), added in repel mode and
subtracted otherwise.  It exists only to be compared against the code's
behaviour, which instead computes the force from the particle's rendered
position at the start of the frame. -/
def specPointerDisplacedPosition (a : UpdateArgs) (base : Vec3) : Vec3 :=
  if a.repelEffect = true then base.add (pointerDisplacement a base)
  else base.sub (pointerDisplacement a base)

/-! Concrete fixtures used by the witness and counterexample theorems. -/

/-- A noise oracle that always answers 0. -/
def noiseZero : ℝ → ℝ → ℝ → ℝ := fun _ _ _ => 0

/-- Oscillator-mode settings with depth range 0. -/
def oscSettings : UpdateSettings :=
  { noiseMovement := false, animationSpeed := 1, noiseScale := 0.02, svgDepth := 0 }

/-- Pointer-interaction arguments: repel mode, radius 5, strength 5,
pointer at (3,0,0), unit layer scale, sand off. -/
def pointerArgs : UpdateArgs :=
  { time := 0, mouseInteraction := true, repelEffect := true,
    interactionRadius := 5, interactionStrength := 5, sandEffect := false,
    sandStrength := 5, sandReturn := 1, mousePosition := ⟨3, 0, 0⟩,
    groupScaleX := 1, originalPositionsEntry := some Vec3.zero }

/-- A still particle rendered at (3,4,0) whose original position is the
origin (oscillator amplitude 0, so its base position this frame is the
origin). -/
def pointerParticle : Particle :=
  { visible := true, position := ⟨3, 4, 0⟩,
    data := { originalPosition := some Vec3.zero, offset := Vec3.zero,
              velocity := Vec3.zero, angle := 0, speed := 0, amplitude := 0,
              noiseOffset := Vec3.zero, isStroke := false } }

/-- Sand-mode arguments with pointer interaction disabled and
`sandReturn = 1`. -/
def sandArgs : UpdateArgs :=
  { time := 0, mouseInteraction := false, repelEffect := false,
    interactionRadius := 80, interactionStrength := 3, sandEffect := true,
    sandStrength := 5, sandReturn := 1, mousePosition := Vec3.zero,
    groupScaleX := 1, originalPositionsEntry := some Vec3.zero }

/-- Sand-mode arguments with the large return stiffness 100. -/
def strongSandArgs : UpdateArgs := { sandArgs with sandReturn := 100 }

/-- A fill particle at (1,2,3) at rest, origin original position,
amplitude 0. -/
def springParticle : Particle :=
  { visible := true, position := ⟨1, 2, 3⟩,
    data := { originalPosition := some Vec3.zero, offset := Vec3.zero,
              velocity := Vec3.zero, angle := 0, speed := 0.05, amplitude := 0,
              noiseOffset := Vec3.zero, isStroke := false } }

/-- A particle sitting exactly at its original position (the origin) with
initial velocity (1,0,0). -/
def kickedParticle : Particle :=
  { visible := true, position := Vec3.zero,
    data := { originalPosition := some Vec3.zero, offset := Vec3.zero,
              velocity := ⟨1, 0, 0⟩, angle := 0, speed := 0.05, amplitude := 0,
              noiseOffset := Vec3.zero, isStroke := false } }

/-- A particle at rest at (1,0,0), one unit from its original position. -/
def restParticle : Particle :=
  { visible := true, position := ⟨1, 0, 0⟩,
    data := { originalPosition := some Vec3.zero, offset := Vec3.zero,
              velocity := Vec3.zero, angle := 0, speed := 0.05, amplitude := 0,
              noiseOffset := Vec3.zero, isStroke := false } }

/-- Arguments with both pointer interaction and sand mode off. -/
def quietArgs : UpdateArgs :=
  { time := 0, mouseInteraction := false, repelEffect := false,
    interactionRadius := 80, interactionStrength := 3, sandEffect := false,
    sandStrength := 5, sandReturn := 1, mousePosition := Vec3.zero,
    groupScaleX := 1, originalPositionsEntry := some Vec3.zero }

/-- An outline (stroke) particle with oscillator phase π/2, speed 0 and
amplitude 1: its oscillator displacement at time 0 is exactly (1,0,0). -/
def strokeParticle : Particle :=
  { visible := true, position := Vec3.zero,
    data := { originalPosition := some Vec3.zero, offset := Vec3.zero,
              velocity := Vec3.zero, angle := Real.pi / 2, speed := 0,
              amplitude := 1, noiseOffset := Vec3.zero, isStroke := true } }

/-- Arguments with pointer interaction and sand mode both enabled and the
pointer at (1,2,0) — a z = 0 pointer position, as produced by the z = 0
plane raycast. -/
def mouseSandArgs : UpdateArgs :=
  { time := 0, mouseInteraction := true, repelEffect := false,
    interactionRadius := 80, interactionStrength := 3, sandEffect := true,
    sandStrength := 5, sandReturn := 1, mousePosition := ⟨1, 2, 0⟩,
    groupScaleX := 1, originalPositionsEntry := some Vec3.zero }

/-- A fill particle at the origin with zero offset, velocity and depth. -/
def originParticle : Particle :=
  { visible := true, position := Vec3.zero,
    data := { originalPosition := some Vec3.zero, offset := Vec3.zero,
              velocity := Vec3.zero, angle := 0, speed := 0.05, amplitude := 0,
              noiseOffset := Vec3.zero, isStroke := false } }

end

/-! Basic facts about the sampling loop. -/

/-- The loop exits with exactly the requested number of indices: it inserts
at most one candidate per iteration and stops as soon as the target is
reached. -/
theorem sampleIndicesGo_length (rng : ℕ → ℕ) (len target : ℕ) :
    ∀ (fuel : ℕ) (s₀ s : List ℕ), s₀.length ≤ target →
    sampleIndicesGo rng len target fuel s₀ = some s → s.length = target := by
  intro fuel
  induction fuel with
  | zero =>
    intro s₀ s h0 hrun
    unfold sampleIndicesGo at hrun
    by_cases hc : target ≤ s₀.length
    · rw [if_pos hc] at hrun
      cases hrun
      exact le_antisymm h0 hc
    · rw [if_neg hc] at hrun
      cases hrun
  | succ n ih =>
    intro s₀ s h0 hrun
    unfold sampleIndicesGo at hrun
    by_cases hc : target ≤ s₀.length
    · rw [if_pos hc] at hrun
      cases hrun
      exact le_antisymm h0 hc
    · rw [if_neg hc] at hrun
      refine ih _ _ ?_ hrun
      have hlt : s₀.length < target := lt_of_not_le hc
      by_cases hm : (rng n % len) ∈ s₀
      · rw [List.insert_of_mem hm]
        exact h0
      · rw [List.length_insert_of_not_mem hm]
        exact hlt

/-- Every index produced by the loop is a valid position in a list of
length `len`, provided the initial set only holds valid positions and
`len` is positive. -/
theorem sampleIndicesGo_mem (rng : ℕ → ℕ) (len target : ℕ) (hlen : 0 < len) :
    ∀ (fuel : ℕ) (s₀ s : List ℕ), (∀ i ∈ s₀, i < len) →
    sampleIndicesGo rng len target fuel s₀ = some s → ∀ i ∈ s, i < len := by
  intro fuel
  induction fuel with
  | zero =>
    intro s₀ s h0 hrun
    unfold sampleIndicesGo at hrun
    by_cases hc : target ≤ s₀.length
    · rw [if_pos hc] at hrun
      cases hrun
      exact h0
    · rw [if_neg hc] at hrun
      cases hrun
  | succ n ih =>
    intro s₀ s h0 hrun
    unfold sampleIndicesGo at hrun
    by_cases hc : target ≤ s₀.length
    · rw [if_pos hc] at hrun
      cases hrun
      exact h0
    · rw [if_neg hc] at hrun
      refine ih _ _ ?_ hrun
      intro i hi
      rcases List.mem_insert_iff.mp hi with h | h
      · subst h
        exact Nat.mod_lt _ hlen
      · exact h0 i h

/-- The loop never puts the same index into the set twice ("without
replacement"): `Set.add` / `List.insert` is a no-op on present elements. -/
theorem sampleIndicesGo_nodup (rng : ℕ → ℕ) (len target : ℕ) :
    ∀ (fuel : ℕ) (s₀ s : List ℕ), s₀.Nodup →
    sampleIndicesGo rng len target fuel s₀ = some s → s.Nodup := by
  intro fuel
  induction fuel with
  | zero =>
    intro s₀ s h0 hrun
    unfold sampleIndicesGo at hrun
    by_cases hc : target ≤ s₀.length
    · rw [if_pos hc] at hrun
      cases hrun
      exact h0
    · rw [if_neg hc] at hrun
      cases hrun
  | succ n ih =>
    intro s₀ s h0 hrun
    unfold sampleIndicesGo at hrun
    by_cases hc : target ≤ s₀.length
    · rw [if_pos hc] at hrun
      cases hrun
      exact h0
    · rw [if_neg hc] at hrun
      exact ih _ _ h0.insert hrun

/-! Arithmetic of the per-set quotas computed at script.js:1621-1623. -/

/-- The stroke quota `floor(target * |stroke| / |points|)` never exceeds the
stroke set when the target is below the candidate total. -/
theorem strokeQuota_le (F O T : ℕ) (hlt : T < F + O) :
    T * O / (F + O) ≤ O :=
  Nat.div_le_of_le_mul (Nat.mul_le_mul_right O hlt.le)

/-- The stroke quota never exceeds the target itself. -/
theorem strokeQuota_le_target (F O T : ℕ) :
    T * O / (F + O) ≤ T :=
  Nat.div_le_of_le_mul (by
    rw [Nat.mul_comm (F + O) T]
    exact Nat.mul_le_mul_left T (Nat.le_add_left O F))

/-- The fill quota `target - strokeQuota` never exceeds the fill set when
the target is below the candidate total: the rounding of the stroke quota
can only push points toward the (large enough) fill set. -/
theorem fillQuota_le (F O T : ℕ) (hlt : T < F + O) :
    T - T * O / (F + O) ≤ F := by
  have hN : 0 < F + O := lt_of_le_of_lt (Nat.zero_le T) hlt
  by_cases hF : T ≤ F
  · exact le_trans (Nat.sub_le _ _) hF
  · have hFT : F < T := lt_of_not_le hF
    have h : T - F ≤ T * O / (F + O) := by
      rw [Nat.le_div_iff_mul_le hN]
      zify [hFT.le]
      nlinarith [show (T : ℤ) + 1 ≤ (F : ℤ) + (O : ℤ) by exact_mod_cast hlt,
        show (0 : ℤ) ≤ (F : ℤ) by positivity]
    omega

/-- Structure of a successful `samplePoints` run in the downsampling branch
(script.js:1619-1672): the result is a block of stroke points at distinct
valid stroke indices of size exactly the stroke quota, followed by a block
of fill points at distinct valid fill indices making up the remainder of
the target. -/
theorem samplePoints_branch2 [DecidableEq α] [Inhabited α]
    (rngS rngF rngU : ℕ → ℕ) (fuel : ℕ)
    (points strokePoints fillPoints : List α) (T : ℕ)
    (colors strokeColors fillColors : Option (List γ))
    (l : List (SampledPoint α γ))
    (hT : 1 ≤ T)
    (hsum : points.length = fillPoints.length + strokePoints.length)
    (hlt : T < points.length)
    (hrun : samplePoints rngS rngF rngU fuel points strokePoints fillPoints T
      colors strokeColors fillColors = some l) :
    ∃ sIdx fIdx : List ℕ,
      sIdx.Nodup ∧ fIdx.Nodup ∧
      sIdx.length = T * strokePoints.length / points.length ∧
      fIdx.length = T - T * strokePoints.length / points.length ∧
      (∀ i ∈ sIdx, i < strokePoints.length) ∧
      (∀ i ∈ fIdx, i < fillPoints.length) ∧
      l = sIdx.map (fun i =>
            (⟨strokePoints.getD i default, true,
              strokeColors.bind (fun cs => cs[i]?)⟩ : SampledPoint α γ))
          ++ fIdx.map (fun i =>
            (⟨fillPoints.getD i default, false,
              fillColors.bind (fun cs => cs[i]?)⟩ : SampledPoint α γ)) := by
  set F := fillPoints.length with hF
  set O := strokePoints.length with hO
  set N := points.length with hN
  have hNFO : N = F + O := hsum
  unfold samplePoints at hrun
  rw [if_neg (not_le.mpr hlt)] at hrun
  dsimp only at hrun
  rw [hNFO] at hlt
  have hQO : T * O / N ≤ O := hNFO ▸ strokeQuota_le F O T hlt
  have hQT : T * O / N ≤ T := hNFO ▸ strokeQuota_le_target F O T
  have hQF : T - T * O / N ≤ F := hNFO ▸ fillQuota_le F O T hlt
  by_cases hOpos : 0 < O
  · rw [if_pos hOpos] at hrun
    rcases Option.bind_eq_some.mp hrun with ⟨ss, hss, hrun2⟩
    rcases Option.map_eq_some'.mp hss with ⟨sIdx, hsIdx, hssEq⟩
    have hsLen : sIdx.length = T * O / N := by
      have := sampleIndicesGo_length rngS O (min (T * O / N) O) fuel [] sIdx
        (by simp) hsIdx
      rw [min_eq_left hQO] at this
      exact this
    have hsMem : ∀ i ∈ sIdx, i < O :=
      sampleIndicesGo_mem rngS O _ hOpos fuel [] sIdx (by simp) hsIdx
    have hsNodup : sIdx.Nodup :=
      sampleIndicesGo_nodup rngS O _ fuel [] sIdx List.nodup_nil hsIdx
    by_cases hFpos : 0 < F
    · rw [if_pos hFpos] at hrun2
      rcases Option.bind_eq_some.mp hrun2 with ⟨fs, hfs, hrun3⟩
      rcases Option.map_eq_some'.mp hfs with ⟨fIdx, hfIdx, hfsEq⟩
      have hfLen : fIdx.length = T - T * O / N := by
        have := sampleIndicesGo_length rngF F (min (T - T * O / N) F) fuel [] fIdx
          (by simp) hfIdx
        rw [min_eq_left hQF] at this
        exact this
      have hfMem : ∀ i ∈ fIdx, i < F :=
        sampleIndicesGo_mem rngF F _ hFpos fuel [] fIdx (by simp) hfIdx
      have hfNodup : fIdx.Nodup :=
        sampleIndicesGo_nodup rngF F _ fuel [] fIdx List.nodup_nil hfIdx
      have hlen : (ss ++ fs).length = T := by
        rw [List.length_append, ← hssEq, ← hfsEq]
        simp only [List.length_map]
        omega
      rw [if_neg (by omega)] at hrun3
      cases hrun3
      exact ⟨sIdx, fIdx, hsNodup, hfNodup, hsLen, hfLen, hsMem, hfMem,
        by rw [← hssEq, ← hfsEq]⟩
    · have hFzero : F = 0 := by omega
      rw [if_neg (by omega)] at hrun2
      rcases Option.bind_eq_some.mp hrun2 with ⟨fs, hfs, hrun3⟩
      cases hfs
      have hQeq : T * O / N = T := by
        rw [hNFO, hFzero, Nat.zero_add, Nat.mul_div_cancel _ hOpos]
      have hlen : (ss ++ ([] : List (SampledPoint α γ))).length = T := by
        rw [List.length_append, ← hssEq]
        simp only [List.length_map, List.length_nil]
        omega
      rw [if_neg (by omega)] at hrun3
      cases hrun3
      refine ⟨sIdx, [], hsNodup, List.nodup_nil, hsLen, by simp [hQeq], hsMem,
        by simp, ?_⟩
      rw [← hssEq]
      simp
  · have hOzero : O = 0 := by omega
    rw [if_neg (by omega)] at hrun
    rcases Option.bind_eq_some.mp hrun with ⟨ss, hss, hrun2⟩
    cases hss
    have hQzero : T * O / N = 0 := by rw [hOzero, Nat.mul_zero, Nat.zero_div]
    have hFpos : 0 < F := by omega
    rw [if_pos hFpos] at hrun2
    rcases Option.bind_eq_some.mp hrun2 with ⟨fs, hfs, hrun3⟩
    rcases Option.map_eq_some'.mp hfs with ⟨fIdx, hfIdx, hfsEq⟩
    have hfLen : fIdx.length = T - T * O / N := by
      have := sampleIndicesGo_length rngF F (min (T - T * O / N) F) fuel [] fIdx
        (by simp) hfIdx
      rw [min_eq_left hQF] at this
      exact this
    have hfMem : ∀ i ∈ fIdx, i < F :=
      sampleIndicesGo_mem rngF F _ hFpos fuel [] fIdx (by simp) hfIdx
    have hfNodup : fIdx.Nodup :=
      sampleIndicesGo_nodup rngF F _ fuel [] fIdx List.nodup_nil hfIdx
    have hlen : (([] : List (SampledPoint α γ)) ++ fs).length = T := by
      rw [List.length_append, ← hfsEq]
      simp only [List.length_map, List.length_nil]
      omega
    rw [if_neg (by omega)] at hrun3
    cases hrun3
    refine ⟨[], fIdx, List.nodup_nil, hfNodup, by simp [hQzero], hfLen, by simp,
      hfMem, ?_⟩
    rw [← hfsEq]
    simp

/-- C2: for every candidate set (fill plus outline points) and every target
count `T ≥ 1`, a successful point-selection run returns exactly
`min(T, |fill| + |outline|)` points: all candidates when the candidate total
is at most `T`, and exactly `T` points otherwise — the per-set quota minima
never reduce the total below `T`. -/
theorem claim_C2 [DecidableEq α] [Inhabited α]
    (rngS rngF rngU : ℕ → ℕ) (fuel : ℕ)
    (points strokePoints fillPoints : List α) (T : ℕ)
    (colors strokeColors fillColors : Option (List γ))
    (l : List (SampledPoint α γ))
    (hT : 1 ≤ T)
    (hsum : points.length = fillPoints.length + strokePoints.length)
    (hrun : samplePoints rngS rngF rngU fuel points strokePoints fillPoints T
      colors strokeColors fillColors = some l) :
    l.length = min T points.length := by
  by_cases hle : points.length ≤ T
  · unfold samplePoints at hrun
    rw [if_pos hle] at hrun
    cases hrun
    simp only [List.length_map, List.enum_length]
    exact (min_eq_right hle).symm
  · have hlt : T < points.length := lt_of_not_le hle
    obtain ⟨sIdx, fIdx, -, -, hsLen, hfLen, -, -, hl⟩ :=
      samplePoints_branch2 rngS rngF rngU fuel points strokePoints fillPoints T
        colors strokeColors fillColors l hT hsum hlt hrun
    have hQT : T * strokePoints.length / points.length ≤ T := by
      rw [hsum]
      exact strokeQuota_le_target _ _ _
    rw [hl, List.length_append, List.length_map, List.length_map,
      hsLen, hfLen, min_eq_left hlt.le]
    omega

/-- Witness for C2 at a concrete input: three candidates (two fill, one
stroke), target 2, with the identity random streams. -/
theorem claim_C2_witness :
    1 ≤ 2 ∧
    ([10, 20, 30] : List ℕ).length = ([10, 20] : List ℕ).length + ([30] : List ℕ).length ∧
    ∃ l : List (SampledPoint ℕ ℕ),
      samplePoints id id id 4 [10, 20, 30] [30] [10, 20] 2 none none none = some l ∧
      l.length = min 2 3 := by
  refine ⟨by norm_num, by decide, ?_⟩
  obtain ⟨l, hl⟩ := Option.isSome_iff_exists.mp
    (by decide :
      (samplePoints id id id 4 ([10, 20, 30] : List ℕ) [30] [10, 20] 2
        (none : Option (List ℕ)) none none).isSome = true)
  exact ⟨l, hl, claim_C2 id id id 4 _ _ _ 2 none none none l (by norm_num) (by decide) hl⟩

/-- C5: for every candidate set with `F` fill points, `O` outline points and
target `T < F + O`, the selected set contains exactly
`floor(T*O/(F+O))` outline points (hence within ±1 of that value), taken
without replacement (distinct indices) from the outline set, and the
remaining `T - floor(T*O/(F+O))` points are fill points taken without
replacement from the fill set.  The random draws themselves are supplied by
the oracle streams `rngS`/`rngF`. -/
theorem claim_C5 [DecidableEq α] [Inhabited α]
    (rngS rngF rngU : ℕ → ℕ) (fuel : ℕ)
    (points strokePoints fillPoints : List α) (T : ℕ)
    (colors strokeColors fillColors : Option (List γ))
    (l : List (SampledPoint α γ))
    (hT : 1 ≤ T)
    (hsum : points.length = fillPoints.length + strokePoints.length)
    (hlt : T < points.length)
    (hrun : samplePoints rngS rngF rngU fuel points strokePoints fillPoints T
      colors strokeColors fillColors = some l) :
    ∃ sIdx fIdx : List ℕ,
      sIdx.Nodup ∧ fIdx.Nodup ∧
      sIdx.length = T * strokePoints.length / points.length ∧
      fIdx.length = T - T * strokePoints.length / points.length ∧
      (∀ i ∈ sIdx, i < strokePoints.length) ∧
      (∀ i ∈ fIdx, i < fillPoints.length) ∧
      l = sIdx.map (fun i =>
            (⟨strokePoints.getD i default, true,
              strokeColors.bind (fun cs => cs[i]?)⟩ : SampledPoint α γ))
          ++ fIdx.map (fun i =>
            (⟨fillPoints.getD i default, false,
              fillColors.bind (fun cs => cs[i]?)⟩ : SampledPoint α γ)) :=
  samplePoints_branch2 rngS rngF rngU fuel points strokePoints fillPoints T
    colors strokeColors fillColors l hT hsum hlt hrun

/-- Witness for C5 at a concrete input: two fill and one stroke candidate,
target 2 < 3, identity random streams. -/
theorem claim_C5_witness :
    1 ≤ 2 ∧
    ([10, 20, 30] : List ℕ).length = ([10, 20] : List ℕ).length + ([30] : List ℕ).length ∧
    2 < ([10, 20, 30] : List ℕ).length ∧
    ∃ l : List (SampledPoint ℕ ℕ),
      samplePoints id id id 4 [10, 20, 30] [30] [10, 20] 2 none none none = some l ∧
      ∃ sIdx fIdx : List ℕ,
        sIdx.Nodup ∧ fIdx.Nodup ∧
        sIdx.length = 2 * ([30] : List ℕ).length / 3 ∧
        fIdx.length = 2 - 2 * ([30] : List ℕ).length / 3 ∧
        (∀ i ∈ sIdx, i < ([30] : List ℕ).length) ∧
        (∀ i ∈ fIdx, i < ([10, 20] : List ℕ).length) ∧
        l = sIdx.map (fun i =>
              (⟨([30] : List ℕ).getD i default, true,
                (none : Option (List ℕ)).bind (fun cs => cs[i]?)⟩ : SampledPoint ℕ ℕ))
            ++ fIdx.map (fun i =>
              (⟨([10, 20] : List ℕ).getD i default, false,
                (none : Option (List ℕ)).bind (fun cs => cs[i]?)⟩ : SampledPoint ℕ ℕ)) := by
  refine ⟨by norm_num, by decide, by decide, ?_⟩
  obtain ⟨l, hl⟩ := Option.isSome_iff_exists.mp
    (by decide :
      (samplePoints id id id 4 ([10, 20, 30] : List ℕ) [30] [10, 20] 2
        (none : Option (List ℕ)) none none).isSome = true)
  exact ⟨l, hl, claim_C5 id id id 4 _ _ _ 2 none none none l (by norm_num) (by decide)
    (by decide) hl⟩

/-- C1 (amended): the batched (instanced) representation is used for a layer
exactly when the layer's `useInstanced` flag is enabled AND the number of
**candidate** points (the raw fill-plus-outline point list, before
target-count selection) is greater than 500; with exactly 500 candidate
points and `useInstanced` enabled, the per-object representation is used.
The original claim's reference to the selected-point count is refuted by
`claim_C1_counterexample`. -/
theorem claim_C1 [DecidableEq α] [Inhabited α]
    (rngS rngF rngU : ℕ → ℕ) (fuel : ℕ)
    (layerUseInstanced : Bool) (points strokePoints fillPoints : List α)
    (particleCount : ℕ) (colors strokeColors fillColors : Option (List γ)) :
    (createParticles rngS rngF rngU fuel layerUseInstanced points strokePoints
      fillPoints particleCount colors strokeColors fillColors).representation =
      Representation.batched ↔
    (layerUseInstanced = true ∧ 500 < points.length) := by
  unfold createParticles
  cases layerUseInstanced <;> by_cases h : 500 < points.length <;>
    simp [h]

set_option maxRecDepth 40000 in
/-- Counterexample to C1 as stated: 501 candidate points with target count 1
and `useInstanced` enabled.  Only 1 point is selected (1 ≤ 500), yet the
batched representation is chosen, because `createParticles` tests
`points.length > 500` on the candidate list (script.js:1581), not on the
selected points. -/
theorem claim_C1_counterexample :
    (createParticles id id id 2 true (List.range 501) ([] : List ℕ) (List.range 501) 1
      (none : Option (List ℕ)) none none).representation = Representation.batched ∧
    (createParticles id id id 2 true (List.range 501) ([] : List ℕ) (List.range 501) 1
      (none : Option (List ℕ)) none none).particleCount = some 1 ∧
    ¬ (500 < 1) := by
  refine ⟨by decide, by decide, by norm_num⟩

/-! Facts about the checkbox reads (claim C9). -/

/-- With default `true`, `el?.checked || true` is `true` whatever the
element state. -/
theorem jsOrBool_default_true (v : Option Bool) : jsOrBool v true = true := by
  cases v with
  | none => rfl
  | some b => cases b <;> rfl

/-- With default `false`, `el?.checked || false` reports exactly whether the
element exists and is checked. -/
theorem jsOrBool_default_false (v : Option Bool) :
    jsOrBool v false = true ↔ v = some true := by
  cases v with
  | none => simp [jsOrBool]
  | some b => cases b <;> simp [jsOrBool]

/-- C9: every boolean option read with the pattern `element?.checked || true`
(`useGradient`, `mouseInteraction`, `glowEffect`, `noiseMovement`,
`includeStrokes`, `enableOrbit`, `useInstanced`) evaluates to `true`
regardless of whether its checkbox is checked, unchecked or absent — in
particular the settings snapshot can never report `noiseMovement = false`,
so the oscillator mode is unreachable through this reader — while the
options read with `|| false` (`sandEffect`, `repelEffect`,
`preserveColors`) are `true` exactly when their checkbox exists and is
checked. -/
theorem claim_C9 (dom : CheckboxElements) :
    (getSettingsFlags dom).useGradient = true ∧
    (getSettingsFlags dom).mouseInteraction = true ∧
    (getSettingsFlags dom).glowEffect = true ∧
    (getSettingsFlags dom).noiseMovement = true ∧
    (getSettingsFlags dom).includeStrokes = true ∧
    (getSettingsFlags dom).enableOrbit = true ∧
    (getSettingsFlags dom).useInstanced = true ∧
    ((getSettingsFlags dom).sandEffect = true ↔ dom.sandEffect = some true) ∧
    ((getSettingsFlags dom).repelEffect = true ↔ dom.repelEffect = some true) ∧
    ((getSettingsFlags dom).preserveColors = true ↔ dom.preserveColors = some true) := by
  simp [getSettingsFlags, jsOrBool_default_true, jsOrBool_default_false]

/-! Facts about the pointer-interaction guard (claim C10). -/

/-- The length of the cleared pointer position is zero. -/
theorem clearedMousePosition_length : clearedMousePosition.length = 0 := by
  simp [clearedMousePosition, Vec3.length, Real.sqrt_zero]

/-- When the stored pointer position has zero length, the pointer block
leaves the position unchanged. -/
theorem positionAfterMouse_of_length_zero (a : UpdateArgs)
    (h : a.mousePosition.length = 0) (pos base : Vec3) :
    positionAfterMouse a pos base = base := by
  unfold positionAfterMouse
  rw [if_neg]
  rintro ⟨-, hlt⟩
  rw [h] at hlt
  exact lt_irrefl 0 hlt

/-- When pointer interaction is disabled, the pointer block leaves the
position unchanged. -/
theorem positionAfterMouse_of_not_interaction (a : UpdateArgs)
    (h : a.mouseInteraction = false) (pos base : Vec3) :
    positionAfterMouse a pos base = base := by
  unfold positionAfterMouse
  rw [if_neg]
  rintro ⟨h1, -⟩
  rw [h] at h1
  cases h1

/-- When the stored pointer position has zero length, the pointer block
leaves the velocity unchanged. -/
theorem velocityAfterMouse_of_length_zero (a : UpdateArgs)
    (h : a.mousePosition.length = 0) (pos v : Vec3) :
    velocityAfterMouse a pos v = v := by
  unfold velocityAfterMouse
  rw [if_neg]
  rintro ⟨-, hlt⟩
  rw [h] at hlt
  exact lt_irrefl 0 hlt

/-- When pointer interaction is disabled, the pointer block leaves the
velocity unchanged. -/
theorem velocityAfterMouse_of_not_interaction (a : UpdateArgs)
    (h : a.mouseInteraction = false) (pos v : Vec3) :
    velocityAfterMouse a pos v = v := by
  unfold velocityAfterMouse
  rw [if_neg]
  rintro ⟨h1, -⟩
  rw [h] at h1
  cases h1

/-- C10: if the stored pointer world position is exactly the origin — the
value written by `clearMousePosition` whenever the cursor leaves the canvas
— then the pointer-force step is skipped for every particle in both update
paths, even when pointer interaction is enabled: the update behaves
identically to one with pointer interaction disabled.  A pointer hovering
exactly at the world origin therefore exerts no force. -/
theorem claim_C10 (noise3D : ℝ → ℝ → ℝ → ℝ) (s : UpdateSettings)
    (a : UpdateArgs) (p : Particle) :
    updateTraditionalParticle noise3D s
        { a with mousePosition := clearedMousePosition } p =
      updateTraditionalParticle noise3D s
        { a with mousePosition := clearedMousePosition, mouseInteraction := false } p ∧
    updateInstancedParticle noise3D s
        { a with mousePosition := clearedMousePosition } p =
      updateInstancedParticle noise3D s
        { a with mousePosition := clearedMousePosition, mouseInteraction := false } p := by
  have h1 : ({ a with mousePosition := clearedMousePosition } :
      UpdateArgs).mousePosition.length = 0 := clearedMousePosition_length
  have h2 : ({ a with mousePosition := clearedMousePosition, mouseInteraction := false } : UpdateArgs).mouseInteraction = false := rfl
  constructor <;>
  · simp only [updateTraditionalParticle, updateInstancedParticle,
      positionAfterMouse_of_length_zero _ h1,
      velocityAfterMouse_of_length_zero _ h1,
      positionAfterMouse_of_not_interaction _ h2,
      velocityAfterMouse_of_not_interaction _ h2]
    rfl

/-! Helper for evaluating square roots at perfect squares. -/

/-- Evaluate `Real.sqrt` at a number recognised as a square. -/
theorem sqrt_of_eq_sq (a b : ℝ) (hb : 0 ≤ b) (h : a = b ^ 2) :
    Real.sqrt a = b := by
  rw [h]
  exact Real.sqrt_sq hb

/-! Claim C4: the spring ("sand") override. -/

/-- C4: when spring (sand) mode is enabled, each per-frame update (in both
the traditional and the instanced path) computes
`target = originalPosition + proceduralDisplacement` with the pointer force
excluded from the target (the pointer only perturbs the velocity, which is
`velocityAfterMouse`), then
`velocity' = 0.95 * (velocity + (target - currentRenderedPosition) * 0.05 * sandReturn)`
and `newPosition = currentRenderedPosition + velocity'`, and this
`newPosition` overrides the position computed by the procedural and
pointer-force steps. -/
theorem claim_C4 (noise3D : ℝ → ℝ → ℝ → ℝ) (s : UpdateSettings)
    (a : UpdateArgs) (p : Particle) (o : Vec3)
    (hvis : p.visible = true) (hsand : a.sandEffect = true)
    (hentry : a.originalPositionsEntry = some o) :
    ((updateTraditionalParticle noise3D s a p).data.velocity =
        ((velocityAfterMouse a p.position p.data.velocity).add
          (((o.add (storedOffset noise3D s a.time p.data)).sub p.position).smul
            (0.05 * a.sandReturn))).smul 0.95 ∧
      (updateTraditionalParticle noise3D s a p).position =
        p.position.add (updateTraditionalParticle noise3D s a p).data.velocity) ∧
    ((updateInstancedParticle noise3D s a p).data.velocity =
        ((velocityAfterMouse a p.position p.data.velocity).add
          (((o.add (storedOffset noise3D s a.time p.data)).sub p.position).smul
            (0.05 * a.sandReturn))).smul 0.95 ∧
      (updateInstancedParticle noise3D s a p).position =
        p.position.add (updateInstancedParticle noise3D s a p).data.velocity) := by
  refine ⟨⟨?_, ?_⟩, ⟨?_, ?_⟩⟩ <;>
    simp [updateTraditionalParticle, updateInstancedParticle, sandTarget,
      hvis, hsand, hentry]

/-- Witness for C4: the spring formulas evaluated on `springParticle` under
`sandArgs`. -/
theorem claim_C4_witness :
    springParticle.visible = true ∧ sandArgs.sandEffect = true ∧
    sandArgs.originalPositionsEntry = some Vec3.zero ∧
    (((updateTraditionalParticle noiseZero oscSettings sandArgs springParticle).data.velocity =
        ((velocityAfterMouse sandArgs springParticle.position springParticle.data.velocity).add
          (((Vec3.zero.add (storedOffset noiseZero oscSettings sandArgs.time springParticle.data)).sub
              springParticle.position).smul (0.05 * sandArgs.sandReturn))).smul 0.95 ∧
      (updateTraditionalParticle noiseZero oscSettings sandArgs springParticle).position =
        springParticle.position.add
          (updateTraditionalParticle noiseZero oscSettings sandArgs springParticle).data.velocity) ∧
    ((updateInstancedParticle noiseZero oscSettings sandArgs springParticle).data.velocity =
        ((velocityAfterMouse sandArgs springParticle.position springParticle.data.velocity).add
          (((Vec3.zero.add (storedOffset noiseZero oscSettings sandArgs.time springParticle.data)).sub
              springParticle.position).smul (0.05 * sandArgs.sandReturn))).smul 0.95 ∧
      (updateInstancedParticle noiseZero oscSettings sandArgs springParticle).position =
        springParticle.position.add
          (updateInstancedParticle noiseZero oscSettings sandArgs springParticle).data.velocity)) :=
  ⟨rfl, rfl, rfl,
    claim_C4 noiseZero oscSettings sandArgs springParticle Vec3.zero rfl rfl rfl⟩

/-! Claim C6: the outline ×1.2 scaling. -/

/-- C6 (amended): in both update paths and both procedural modes, the
displacement actually applied to the particle's position for the frame is
the **unscaled** mode displacement, for outline particles just as for fill
particles: the ×1.2 outline scaling (script.js:2240-2243, 2059-2062) runs
only after the offset has already been added to the position, so it affects
only the particle's stored `offset` (and hence the spring-mode target of a
later step), never the position displacement of the frame itself.  Stated
here with the pointer block and sand mode inactive so that the frame
position is exactly base-plus-procedural-displacement. -/
theorem claim_C6 (noise3D : ℝ → ℝ → ℝ → ℝ) (s : UpdateSettings)
    (a : UpdateArgs) (p : Particle)
    (hvis : p.visible = true) (hmi : a.mouseInteraction = false)
    (hsand : a.sandEffect = false) :
    ((updateTraditionalParticle noise3D s a p).position =
        (p.data.originalPosition.getD Vec3.zero).add
          (proceduralOffset noise3D s a.time p.data) ∧
      (updateTraditionalParticle noise3D s a p).data.offset =
        storedOffset noise3D s a.time p.data) ∧
    ((updateInstancedParticle noise3D s a p).position =
        (p.data.originalPosition.getD Vec3.zero).add
          (proceduralOffset noise3D s a.time p.data) ∧
      (updateInstancedParticle noise3D s a p).data.offset =
        storedOffset noise3D s a.time p.data) ∧
    (p.data.isStroke = true →
      storedOffset noise3D s a.time p.data =
        (proceduralOffset noise3D s a.time p.data).smul 1.2) := by
  refine ⟨⟨?_, ?_⟩, ⟨?_, ?_⟩, ?_⟩
  · simp [updateTraditionalParticle, hvis, hsand,
      positionAfterMouse_of_not_interaction _ hmi]
  · simp [updateTraditionalParticle, hvis, hsand]
  · simp [updateInstancedParticle, hvis, hsand,
      positionAfterMouse_of_not_interaction _ hmi]
  · simp [updateInstancedParticle, hvis, hsand]
  · intro h
    simp [storedOffset, h]

/-- Witness for C6 on the concrete outline particle `strokeParticle`. -/
theorem claim_C6_witness :
    strokeParticle.visible = true ∧ quietArgs.mouseInteraction = false ∧
    quietArgs.sandEffect = false ∧
    (((updateTraditionalParticle noiseZero oscSettings quietArgs strokeParticle).position =
        (strokeParticle.data.originalPosition.getD Vec3.zero).add
          (proceduralOffset noiseZero oscSettings quietArgs.time strokeParticle.data) ∧
      (updateTraditionalParticle noiseZero oscSettings quietArgs strokeParticle).data.offset =
        storedOffset noiseZero oscSettings quietArgs.time strokeParticle.data) ∧
    ((updateInstancedParticle noiseZero oscSettings quietArgs strokeParticle).position =
        (strokeParticle.data.originalPosition.getD Vec3.zero).add
          (proceduralOffset noiseZero oscSettings quietArgs.time strokeParticle.data) ∧
      (updateInstancedParticle noiseZero oscSettings quietArgs strokeParticle).data.offset =
        storedOffset noiseZero oscSettings quietArgs.time strokeParticle.data) ∧
    (strokeParticle.data.isStroke = true →
      storedOffset noiseZero oscSettings quietArgs.time strokeParticle.data =
        (proceduralOffset noiseZero oscSettings quietArgs.time strokeParticle.data).smul 1.2)) :=
  ⟨rfl, rfl, rfl,
    claim_C6 noiseZero oscSettings quietArgs strokeParticle rfl rfl rfl⟩

/-- Counterexample to C6 as stated: the outline particle `strokeParticle`
has oscillator displacement (1,0,0) at time 0, and its updated position is
`originalPosition + (1,0,0)` — not `originalPosition + 1.2·(1,0,0)` as the
claim asserts for the displacement "actually applied to the particle's
position". -/
theorem claim_C6_counterexample :
    proceduralOffset noiseZero oscSettings 0 strokeParticle.data = ⟨1, 0, 0⟩ ∧
    (updateTraditionalParticle noiseZero oscSettings quietArgs strokeParticle).position =
      ⟨1, 0, 0⟩ ∧
    Vec3.zero.add ((⟨1, 0, 0⟩ : Vec3).smul 1.2) = ⟨1.2, 0, 0⟩ ∧
    ((⟨1, 0, 0⟩ : Vec3) ≠ (⟨1.2, 0, 0⟩ : Vec3)) := by
  have hoff : proceduralOffset noiseZero oscSettings 0 strokeParticle.data = ⟨1, 0, 0⟩ := by
    simp [proceduralOffset, oscillatorOffset, oscillatorAngle, oscSettings,
      strokeParticle, Vec3.zero]
  refine ⟨hoff, ?_, ?_, ?_⟩
  · have hvis : strokeParticle.visible = true := rfl
    have hsand : quietArgs.sandEffect = false := rfl
    have hq : quietArgs.mouseInteraction = false := rfl
    have htime : quietArgs.time = 0 := rfl
    simp only [updateTraditionalParticle, hvis, hsand, if_true]
    rw [positionAfterMouse_of_not_interaction _ hq]
    rw [htime, hoff]
    simp [strokeParticle, Vec3.add, Vec3.zero]
  · simp [Vec3.add, Vec3.smul, Vec3.zero]
  · intro h
    have := congrArg Vec3.x h
    norm_num at this

/-! Claim C3: the pointer-force step. -/

/-- C3 (amended): for a particle inside the interaction radius during a
frame update with pointer interaction enabled, the pointer-force
displacement is computed from the particle's rendered position at the
start of the frame (`particle.position`, the previous frame's result) —
not from the base position `originalPosition + proceduralDisplacement`
claimed by the spec — with
`forceFactor = (radius·scale − distance)/(radius·scale)`,
`force = interactionStrength · forceFactor` and direction the unit vector
from the pointer to that start-of-frame position (all inside
`pointerDisplacement`); in repel mode the displacement is added to the
procedurally displaced base position, otherwise subtracted.  Stated with
sand mode off, which would otherwise override the resulting position.
The original claim's "from the base position" reading is refuted by
`claim_C3_counterexample`. -/
theorem claim_C3 (noise3D : ℝ → ℝ → ℝ → ℝ) (s : UpdateSettings)
    (a : UpdateArgs) (p : Particle)
    (hvis : p.visible = true) (hsand : a.sandEffect = false)
    (hmi : a.mouseInteraction = true) (hlen : 0 < a.mousePosition.length)
    (hdist : p.position.distanceTo a.mousePosition <
      a.interactionRadius * a.groupScaleX) :
    ((updateTraditionalParticle noise3D s a p).position =
        (if a.repelEffect = true then
          ((p.data.originalPosition.getD Vec3.zero).add
            (proceduralOffset noise3D s a.time p.data)).add
            (pointerDisplacement a p.position)
        else
          ((p.data.originalPosition.getD Vec3.zero).add
            (proceduralOffset noise3D s a.time p.data)).sub
            (pointerDisplacement a p.position))) ∧
    ((updateInstancedParticle noise3D s a p).position =
        (if a.repelEffect = true then
          ((p.data.originalPosition.getD Vec3.zero).add
            (proceduralOffset noise3D s a.time p.data)).add
            (pointerDisplacement a p.position)
        else
          ((p.data.originalPosition.getD Vec3.zero).add
            (proceduralOffset noise3D s a.time p.data)).sub
            (pointerDisplacement a p.position))) := by
  have hp : ∀ base, positionAfterMouse a p.position base =
      (if a.repelEffect = true then base.add (pointerDisplacement a p.position)
       else base.sub (pointerDisplacement a p.position)) := by
    intro base
    unfold positionAfterMouse
    rw [if_pos ⟨hmi, hlen⟩, if_pos hdist]
  constructor <;>
  · simp [updateTraditionalParticle, updateInstancedParticle, hvis, hsand, hp]

/-- Witness for C3 on the concrete fixture `pointerParticle` /
`pointerArgs`: the particle sits at (3,4,0), the pointer at (3,0,0),
distance 4 < radius·scale = 5. -/
theorem claim_C3_witness :
    pointerParticle.visible = true ∧ pointerArgs.sandEffect = false ∧
    pointerArgs.mouseInteraction = true ∧ 0 < pointerArgs.mousePosition.length ∧
    pointerParticle.position.distanceTo pointerArgs.mousePosition <
      pointerArgs.interactionRadius * pointerArgs.groupScaleX ∧
    (((updateTraditionalParticle noiseZero oscSettings pointerArgs pointerParticle).position =
        (if pointerArgs.repelEffect = true then
          ((pointerParticle.data.originalPosition.getD Vec3.zero).add
            (proceduralOffset noiseZero oscSettings pointerArgs.time pointerParticle.data)).add
            (pointerDisplacement pointerArgs pointerParticle.position)
        else
          ((pointerParticle.data.originalPosition.getD Vec3.zero).add
            (proceduralOffset noiseZero oscSettings pointerArgs.time pointerParticle.data)).sub
            (pointerDisplacement pointerArgs pointerParticle.position))) ∧
    ((updateInstancedParticle noiseZero oscSettings pointerArgs pointerParticle).position =
        (if pointerArgs.repelEffect = true then
          ((pointerParticle.data.originalPosition.getD Vec3.zero).add
            (proceduralOffset noiseZero oscSettings pointerArgs.time pointerParticle.data)).add
            (pointerDisplacement pointerArgs pointerParticle.position)
        else
          ((pointerParticle.data.originalPosition.getD Vec3.zero).add
            (proceduralOffset noiseZero oscSettings pointerArgs.time pointerParticle.data)).sub
            (pointerDisplacement pointerArgs pointerParticle.position)))) := by
  have hlen : 0 < pointerArgs.mousePosition.length := by
    have : pointerArgs.mousePosition.length = 3 := by
      simp only [pointerArgs]
      simp only [Vec3.length]
      exact sqrt_of_eq_sq _ 3 (by norm_num) (by norm_num)
    rw [this]
    norm_num
  have hdist : pointerParticle.position.distanceTo pointerArgs.mousePosition <
      pointerArgs.interactionRadius * pointerArgs.groupScaleX := by
    have : pointerParticle.position.distanceTo pointerArgs.mousePosition = 4 := by
      simp only [pointerParticle, pointerArgs, Vec3.distanceTo, Vec3.sub, Vec3.length]
      exact sqrt_of_eq_sq _ 4 (by norm_num) (by norm_num)
    rw [this]
    show (4 : ℝ) < pointerArgs.interactionRadius * pointerArgs.groupScaleX
    norm_num [pointerArgs]
  exact ⟨rfl, rfl, rfl, hlen, hdist,
    claim_C3 noiseZero oscSettings pointerArgs pointerParticle rfl rfl rfl hlen hdist⟩

/-- Counterexample to C3 as stated: with `pointerParticle` (rendered at
(3,4,0), base position the origin) and the pointer at (3,0,0) in repel
mode, the code produces position (0,1,0) — force 1 directed from the
pointer to the start-of-frame position — whereas the spec's formula,
evaluated from the base position as the claim states, predicts (-2,0,0).
Both positions are strictly inside the interaction radius, so the claim
applies at this input. -/
theorem claim_C3_counterexample :
    (updateTraditionalParticle noiseZero oscSettings pointerArgs pointerParticle).position =
      ⟨0, 1, 0⟩ ∧
    specPointerDisplacedPosition pointerArgs
      ((pointerParticle.data.originalPosition.getD Vec3.zero).add
        (proceduralOffset noiseZero oscSettings pointerArgs.time pointerParticle.data)) =
      ⟨-2, 0, 0⟩ ∧
    ((⟨0, 1, 0⟩ : Vec3) ≠ (⟨-2, 0, 0⟩ : Vec3)) := by
  have hoff : proceduralOffset noiseZero oscSettings pointerArgs.time pointerParticle.data =
      Vec3.zero := by
    simp [proceduralOffset, oscillatorOffset, oscillatorAngle, oscSettings,
      pointerParticle, pointerArgs, Vec3.zero]
  have hbase : (pointerParticle.data.originalPosition.getD Vec3.zero).add
      (proceduralOffset noiseZero oscSettings pointerArgs.time pointerParticle.data) =
      Vec3.zero := by
    rw [hoff]
    simp [pointerParticle, Vec3.add, Vec3.zero]
  have hdisp : pointerDisplacement pointerArgs pointerParticle.position = ⟨0, 1, 0⟩ := by
    have hsub : (pointerParticle.position.sub pointerArgs.mousePosition) = ⟨0, 4, 0⟩ := by
      simp [pointerParticle, pointerArgs, Vec3.sub]
    have hlen4 : (Vec3.length ⟨0, 4, 0⟩) = 4 := by
      simp only [Vec3.length]
      exact sqrt_of_eq_sq _ 4 (by norm_num) (by norm_num)
    have hd4 : pointerParticle.position.distanceTo pointerArgs.mousePosition = 4 := by
      rw [Vec3.distanceTo, hsub, hlen4]
    unfold pointerDisplacement
    rw [hsub, hd4]
    unfold Vec3.normalize
    rw [hlen4]
    rw [if_neg (by norm_num)]
    show Vec3.smul (Vec3.smul ⟨0, 4, 0⟩ (1 / 4))
      (pointerArgs.interactionStrength *
        ((pointerArgs.interactionRadius * pointerArgs.groupScaleX - 4) /
          (pointerArgs.interactionRadius * pointerArgs.groupScaleX))) = ⟨0, 1, 0⟩
    simp [pointerArgs, Vec3.smul]
    norm_num
  have hdispBase : pointerDisplacement pointerArgs Vec3.zero = ⟨-2, 0, 0⟩ := by
    have hsub : (Vec3.zero.sub pointerArgs.mousePosition) = ⟨-3, 0, 0⟩ := by
      simp [pointerArgs, Vec3.sub, Vec3.zero]
    have hlen3 : (Vec3.length ⟨-3, 0, 0⟩) = 3 := by
      simp only [Vec3.length]
      exact sqrt_of_eq_sq _ 3 (by norm_num) (by norm_num)
    have hd3 : Vec3.zero.distanceTo pointerArgs.mousePosition = 3 := by
      rw [Vec3.distanceTo, hsub, hlen3]
    unfold pointerDisplacement
    rw [hsub, hd3]
    unfold Vec3.normalize
    rw [hlen3]
    rw [if_neg (by norm_num)]
    show Vec3.smul (Vec3.smul ⟨-3, 0, 0⟩ (1 / 3))
      (pointerArgs.interactionStrength *
        ((pointerArgs.interactionRadius * pointerArgs.groupScaleX - 3) /
          (pointerArgs.interactionRadius * pointerArgs.groupScaleX))) = ⟨-2, 0, 0⟩
    simp [pointerArgs, Vec3.smul]
    norm_num
  refine ⟨?_, ?_, ?_⟩
  · have hlen : 0 < pointerArgs.mousePosition.length := by
      have : pointerArgs.mousePosition.length = 3 := by
        simp only [pointerArgs]
        simp only [Vec3.length]
        exact sqrt_of_eq_sq _ 3 (by norm_num) (by norm_num)
      rw [this]
      norm_num
    have hdist : pointerParticle.position.distanceTo pointerArgs.mousePosition <
        pointerArgs.interactionRadius * pointerArgs.groupScaleX := by
      have hsub : (pointerParticle.position.sub pointerArgs.mousePosition) = ⟨0, 4, 0⟩ := by
        simp [pointerParticle, pointerArgs, Vec3.sub]
      have : pointerParticle.position.distanceTo pointerArgs.mousePosition = 4 := by
        rw [Vec3.distanceTo, hsub]
        simp only [Vec3.length]
        exact sqrt_of_eq_sq _ 4 (by norm_num) (by norm_num)
      rw [this]
      show (4 : ℝ) < pointerArgs.interactionRadius * pointerArgs.groupScaleX
      norm_num [pointerArgs]
    have hvis : pointerParticle.visible = true := rfl
    have hsand : pointerArgs.sandEffect = false := rfl
    have hrep : pointerArgs.repelEffect = true := rfl
    have hp : positionAfterMouse pointerArgs pointerParticle.position
        ((pointerParticle.data.originalPosition.getD Vec3.zero).add
          (proceduralOffset noiseZero oscSettings pointerArgs.time pointerParticle.data)) =
        ⟨0, 1, 0⟩ := by
      unfold positionAfterMouse
      rw [if_pos ⟨rfl, hlen⟩, if_pos hdist, if_pos hrep, hbase, hdisp]
      simp [Vec3.add, Vec3.zero]
    simp only [updateTraditionalParticle, hvis, hsand, if_true]
    rw [hp]
    simp
  · unfold specPointerDisplacedPosition
    rw [hbase]
    rw [if_pos (show pointerArgs.repelEffect = true from rfl)]
    rw [hdispBase]
    simp [Vec3.add, Vec3.zero]
  · intro h
    have := congrArg Vec3.y h
    norm_num at this

/-- The z component of a vector sum. -/
theorem Vec3.add_z (a b : Vec3) : (a.add b).z = a.z + b.z := rfl

/-- The z component of a vector difference. -/
theorem Vec3.sub_z (a b : Vec3) : (a.sub b).z = a.z - b.z := rfl

/-- The z component of a scalar multiple. -/
theorem Vec3.smul_z (v : Vec3) (r : ℝ) : (v.smul r).z = v.z * r := rfl

/-! Claim C8: z coordinates with depth range 0. -/

/-- The pointer-force displacement has no z component when both the pointer
and the particle sit in the z = 0 plane. -/
theorem pointerDisplacement_z_zero (a : UpdateArgs) (pos : Vec3)
    (hm : a.mousePosition.z = 0) (hp : pos.z = 0) :
    (pointerDisplacement a pos).z = 0 := by
  simp [pointerDisplacement, Vec3.normalize, Vec3.smul, Vec3.sub, hm, hp]

/-- The pointer block preserves a zero z position. -/
theorem positionAfterMouse_z_zero (a : UpdateArgs) (pos base : Vec3)
    (hm : a.mousePosition.z = 0) (hp : pos.z = 0) (hb : base.z = 0) :
    (positionAfterMouse a pos base).z = 0 := by
  unfold positionAfterMouse
  split_ifs <;>
    simp [Vec3.add, Vec3.sub, pointerDisplacement_z_zero a pos hm hp, hb]

/-- The pointer block preserves a zero z velocity. -/
theorem velocityAfterMouse_z_zero (a : UpdateArgs) (pos v : Vec3)
    (hm : a.mousePosition.z = 0) (hp : pos.z = 0) (hv : v.z = 0) :
    (velocityAfterMouse a pos v).z = 0 := by
  unfold velocityAfterMouse
  split_ifs <;>
    simp [Vec3.add, Vec3.sub, Vec3.smul, pointerDisplacement_z_zero a pos hm hp, hv]

/-- The procedural displacement has no z component when the depth range is
0 and the stored offset's z component is 0, in both procedural modes. -/
theorem proceduralOffset_z_zero (noise3D : ℝ → ℝ → ℝ → ℝ) (s : UpdateSettings)
    (t : ℝ) (d : ParticleData) (hdepth : s.svgDepth = 0) (hz : d.offset.z = 0) :
    (proceduralOffset noise3D s t d).z = 0 := by
  unfold proceduralOffset noiseModeOffset oscillatorOffset
  rw [hdepth]
  split_ifs <;> simp_all

/-- C8: with depth range 0 at generation time, every produced Sample Point
has z coordinate exactly 0; with depth range 0 during updates, the z
component of the procedural displacement is exactly 0 in both the noise
mode and the oscillator mode (given the zero stored offset the particles
are created with); and the per-frame update of the traditional path keeps
position, stored offset and velocity in the z = 0 plane (the stored
pointer position has z = 0, being a raycast intersection with the z = 0
plane). -/
theorem claim_C8 :
    (∀ canvasWidth canvasHeight x y depthFactor : ℝ,
      (samplePointPosition canvasWidth canvasHeight x y 0 depthFactor).z = 0) ∧
    (∀ (noise3D : ℝ → ℝ → ℝ → ℝ) (s : UpdateSettings) (t : ℝ) (d : ParticleData),
      s.svgDepth = 0 → d.offset.z = 0 → (proceduralOffset noise3D s t d).z = 0) ∧
    (∀ (noise3D : ℝ → ℝ → ℝ → ℝ) (s : UpdateSettings) (a : UpdateArgs) (p : Particle),
      s.svgDepth = 0 → a.mousePosition.z = 0 →
      (a.originalPositionsEntry.getD Vec3.zero).z = 0 →
      (p.data.originalPosition.getD Vec3.zero).z = 0 →
      p.position.z = 0 → p.data.offset.z = 0 → p.data.velocity.z = 0 →
      ((updateTraditionalParticle noise3D s a p).position.z = 0 ∧
        (updateTraditionalParticle noise3D s a p).data.offset.z = 0 ∧
        (updateTraditionalParticle noise3D s a p).data.velocity.z = 0)) := by
  refine ⟨?_, ?_, ?_⟩
  · intro w h x y df
    simp [samplePointPosition]
  · intro noise3D s t d hdepth hz
    exact proceduralOffset_z_zero noise3D s t d hdepth hz
  · intro noise3D s a p hdepth hm hentry horig hpos hoff hvel
    have hoff1 : (proceduralOffset noise3D s a.time p.data).z = 0 :=
      proceduralOffset_z_zero noise3D s a.time p.data hdepth hoff
    have hoff2 : (storedOffset noise3D s a.time p.data).z = 0 := by
      unfold storedOffset
      split_ifs <;> simp [Vec3.smul, hoff1]
    have hbase : ((p.data.originalPosition.getD Vec3.zero).add
        (proceduralOffset noise3D s a.time p.data)).z = 0 := by
      simp [Vec3.add, horig, hoff1]
    have hnp2 : (positionAfterMouse a p.position
        ((p.data.originalPosition.getD Vec3.zero).add
          (proceduralOffset noise3D s a.time p.data))).z = 0 :=
      positionAfterMouse_z_zero a _ _ hm hpos hbase
    have hv1 : (velocityAfterMouse a p.position p.data.velocity).z = 0 :=
      velocityAfterMouse_z_zero a _ _ hm hpos hvel
    have htarget : (sandTarget a (storedOffset noise3D s a.time p.data)
        (positionAfterMouse a p.position
          ((p.data.originalPosition.getD Vec3.zero).add
            (proceduralOffset noise3D s a.time p.data)))).z = 0 := by
      unfold sandTarget
      cases he : a.originalPositionsEntry with
      | none => exact hnp2
      | some o =>
        have : o.z = 0 := by
          rw [he] at hentry
          simpa using hentry
        simp [Vec3.add, this, hoff2]
    have hv2 : (((velocityAfterMouse a p.position p.data.velocity).add
        (((sandTarget a (storedOffset noise3D s a.time p.data)
          (positionAfterMouse a p.position
            ((p.data.originalPosition.getD Vec3.zero).add
              (proceduralOffset noise3D s a.time p.data)))).sub
          p.position).smul (0.05 * a.sandReturn))).smul 0.95).z = 0 := by
      rw [Vec3.smul_z, Vec3.add_z, Vec3.smul_z, Vec3.sub_z, hv1, htarget, hpos]
      ring
    by_cases hvis : p.visible = true
    · by_cases hsand : a.sandEffect = true
      · refine ⟨?_, ?_, ?_⟩
        · simp only [updateTraditionalParticle, hvis, hsand, if_true]
          rw [Vec3.add_z, hpos, hv2]
          norm_num
        · simp only [updateTraditionalParticle, hvis, hsand, if_true]
          exact hoff2
        · simp only [updateTraditionalParticle, hvis, hsand, if_true]
          exact hv2
      · refine ⟨?_, ?_, ?_⟩ <;>
          simp [updateTraditionalParticle, hvis, hsand, hnp2, hoff2, hv1]
    · have hv : p.visible = false := by
        cases hb : p.visible
        · rfl
        · exact absurd hb hvis
      refine ⟨?_, ?_, ?_⟩ <;>
        simp [updateTraditionalParticle, hv, hpos, hoff, hvel]

/-- Witness for C8 at a concrete input: a 2000×2000 canvas pixel, and the
origin particle updated under `mouseSandArgs` (pointer at (1,2,0), sand
mode on). -/
theorem claim_C8_witness :
    (samplePointPosition 2000 2000 6 8 0 (1 / 3)).z = 0 ∧
    oscSettings.svgDepth = 0 ∧
    (proceduralOffset noiseZero oscSettings 0 originParticle.data).z = 0 ∧
    mouseSandArgs.mousePosition.z = 0 ∧
    ((updateTraditionalParticle noiseZero oscSettings mouseSandArgs originParticle).position.z = 0 ∧
      (updateTraditionalParticle noiseZero oscSettings mouseSandArgs originParticle).data.offset.z = 0 ∧
      (updateTraditionalParticle noiseZero oscSettings mouseSandArgs originParticle).data.velocity.z = 0) := by
  obtain ⟨h1, h2, h3⟩ := claim_C8
  exact ⟨h1 2000 2000 6 8 (1 / 3), rfl,
    h2 noiseZero oscSettings 0 originParticle.data rfl rfl, rfl,
    h3 noiseZero oscSettings mouseSandArgs originParticle rfl rfl rfl rfl rfl rfl rfl⟩

/-! Claim C7: spring-mode convergence.  With pointer interaction off,
`sandReturn = 1` and zero procedural displacement, each axis follows the
linear recurrence `v' = 0.95 (v + 0.05 (0 − e))`, `e' = e + v'`, whose
Lyapunov form `lyap` contracts by exactly 19/20 per step. -/

/-- The x component of a vector sum. -/
theorem Vec3.add_x (a b : Vec3) : (a.add b).x = a.x + b.x := rfl

/-- The y component of a vector sum. -/
theorem Vec3.add_y (a b : Vec3) : (a.add b).y = a.y + b.y := rfl

/-- The x component of a vector difference. -/
theorem Vec3.sub_x (a b : Vec3) : (a.sub b).x = a.x - b.x := rfl

/-- The y component of a vector difference. -/
theorem Vec3.sub_y (a b : Vec3) : (a.sub b).y = a.y - b.y := rfl

/-- The x component of a scalar multiple. -/
theorem Vec3.smul_x (v : Vec3) (r : ℝ) : (v.smul r).x = v.x * r := rfl

/-- The y component of a scalar multiple. -/
theorem Vec3.smul_y (v : Vec3) (r : ℝ) : (v.smul r).y = v.y * r := rfl

/-- One step of the spring recurrence scales the Lyapunov form by exactly
19/20. -/
theorem lyap_step (e v : ℝ) :
    lyap (e + 0.95 * (v + 0.05 * (0 - e))) (0.95 * (v + 0.05 * (0 - e))) =
      (19 / 20) * lyap e v := by
  unfold lyap
  ring

/-- The Lyapunov form is nonnegative. -/
theorem lyap_nonneg (e v : ℝ) : 0 ≤ lyap e v := by
  unfold lyap
  positivity

/-- The squared velocity is controlled by the Lyapunov form. -/
theorem sq_le_lyap_v (e v : ℝ) : v ^ 2 ≤ (1444 / 28879) * lyap e v := by
  unfold lyap
  nlinarith [sq_nonneg (e + v / 38)]

/-- The squared position error is controlled by the Lyapunov form. -/
theorem sq_le_lyap_e (e v : ℝ) : e ^ 2 ≤ 3 * lyap e v := by
  unfold lyap
  nlinarith [sq_nonneg (76 * (e + v / 38) + v), sq_nonneg v]

/-- Any pair of real sequences following the spring recurrence converges to
(0, 0). -/
theorem sand_seq_tendsto (E V : ℕ → ℝ)
    (hstep : ∀ n, V (n + 1) = 0.95 * (V n + 0.05 * (0 - E n)) ∧
      E (n + 1) = E n + V (n + 1)) :
    Filter.Tendsto E Filter.atTop (nhds 0) ∧
      Filter.Tendsto V Filter.atTop (nhds 0) := by
  have hL : ∀ n, lyap (E n) (V n) = (19 / 20 : ℝ) ^ n * lyap (E 0) (V 0) := by
    intro n
    induction n with
    | zero => simp
    | succ k ih =>
      have h1 := (hstep k).1
      have h2 := (hstep k).2
      have hstepL : lyap (E (k + 1)) (V (k + 1)) = (19 / 20) * lyap (E k) (V k) := by
        rw [h2, h1]
        exact lyap_step (E k) (V k)
      rw [hstepL, ih]
      ring
  have hLt : Filter.Tendsto (fun n => lyap (E n) (V n)) Filter.atTop (nhds 0) := by
    have hgeo : Filter.Tendsto (fun n => (19 / 20 : ℝ) ^ n * lyap (E 0) (V 0))
        Filter.atTop (nhds 0) := by
      have h := tendsto_pow_atTop_nhds_zero_of_lt_one
        (by norm_num : (0 : ℝ) ≤ 19 / 20) (by norm_num : (19 / 20 : ℝ) < 1)
      simpa using h.mul_const (lyap (E 0) (V 0))
    have hfun : (fun n => lyap (E n) (V n)) =
        fun n => (19 / 20 : ℝ) ^ n * lyap (E 0) (V 0) := funext hL
    rw [hfun]
    exact hgeo
  have hE2 : Filter.Tendsto (fun n => (E n) ^ 2) Filter.atTop (nhds 0) := by
    refine squeeze_zero (fun n => sq_nonneg _) (fun n => sq_le_lyap_e (E n) (V n)) ?_
    simpa using hLt.const_mul (3 : ℝ)
  have hV2 : Filter.Tendsto (fun n => (V n) ^ 2) Filter.atTop (nhds 0) := by
    refine squeeze_zero (fun n => sq_nonneg _) (fun n => sq_le_lyap_v (E n) (V n)) ?_
    simpa using hLt.const_mul ((1444 : ℝ) / 28879)
  have habsE : Filter.Tendsto (fun n => |E n|) Filter.atTop (nhds 0) := by
    have h : Filter.Tendsto (fun n => Real.sqrt ((E n) ^ 2)) Filter.atTop
        (nhds (Real.sqrt 0)) := (Real.continuous_sqrt.tendsto 0).comp hE2
    simpa [Real.sqrt_sq_eq_abs, Real.sqrt_zero] using h
  have habsV : Filter.Tendsto (fun n => |V n|) Filter.atTop (nhds 0) := by
    have h : Filter.Tendsto (fun n => Real.sqrt ((V n) ^ 2)) Filter.atTop
        (nhds (Real.sqrt 0)) := (Real.continuous_sqrt.tendsto 0).comp hV2
    simpa [Real.sqrt_sq_eq_abs, Real.sqrt_zero] using h
  constructor
  · refine tendsto_of_tendsto_of_tendsto_of_le_of_le (by simpa using habsE.neg) habsE
      (fun n => neg_abs_le (E n)) (fun n => le_abs_self (E n))
  · refine tendsto_of_tendsto_of_tendsto_of_le_of_le (by simpa using habsV.neg) habsV
      (fun n => neg_abs_le (V n)) (fun n => le_abs_self (V n))

/-- With the oscillator mode selected, amplitude 0 and a zero stored z
offset, the procedural displacement vanishes. -/
theorem proceduralOffset_zero (noise3D : ℝ → ℝ → ℝ → ℝ) (s : UpdateSettings)
    (t : ℝ) (d : ParticleData) (hs : s.noiseMovement = false)
    (hamp : d.amplitude = 0) (hz : d.offset.z = 0) :
    proceduralOffset noise3D s t d = Vec3.zero := by
  unfold proceduralOffset oscillatorOffset
  rw [hs]
  ext <;> simp [hamp, hz, Vec3.zero]

/-- One spring-mode frame under the hypotheses of C7: visibility, zero
amplitude and a zero stored z offset are preserved, and each axis follows
the spring recurrence with stiffness `0.05 · sandReturn = 0.05`. -/
theorem sand_step_fields (noise3D : ℝ → ℝ → ℝ → ℝ) (s : UpdateSettings)
    (a : UpdateArgs) (o : Vec3) (p : Particle)
    (hs : s.noiseMovement = false) (hvis : p.visible = true)
    (hamp : p.data.amplitude = 0) (hoffz : p.data.offset.z = 0)
    (hmi : a.mouseInteraction = false) (hsand : a.sandEffect = true)
    (hentry : a.originalPositionsEntry = some o) :
    (updateTraditionalParticle noise3D s a p).visible = true ∧
    (updateTraditionalParticle noise3D s a p).data.amplitude = 0 ∧
    (updateTraditionalParticle noise3D s a p).data.offset.z = 0 ∧
    ((updateTraditionalParticle noise3D s a p).data.velocity.x =
        0.95 * (p.data.velocity.x + 0.05 * a.sandReturn * (0 - (p.position.x - o.x))) ∧
      (updateTraditionalParticle noise3D s a p).data.velocity.y =
        0.95 * (p.data.velocity.y + 0.05 * a.sandReturn * (0 - (p.position.y - o.y))) ∧
      (updateTraditionalParticle noise3D s a p).data.velocity.z =
        0.95 * (p.data.velocity.z + 0.05 * a.sandReturn * (0 - (p.position.z - o.z)))) ∧
    ((updateTraditionalParticle noise3D s a p).position.x =
        p.position.x + (updateTraditionalParticle noise3D s a p).data.velocity.x ∧
      (updateTraditionalParticle noise3D s a p).position.y =
        p.position.y + (updateTraditionalParticle noise3D s a p).data.velocity.y ∧
      (updateTraditionalParticle noise3D s a p).position.z =
        p.position.z + (updateTraditionalParticle noise3D s a p).data.velocity.z) := by
  have hoff1 : proceduralOffset noise3D s a.time p.data = Vec3.zero :=
    proceduralOffset_zero noise3D s a.time p.data hs hamp hoffz
  have hoff2 : storedOffset noise3D s a.time p.data = Vec3.zero := by
    unfold storedOffset
    rw [hoff1]
    split_ifs <;> ext <;> simp [Vec3.smul, Vec3.zero]
  have htarget : ∀ fallback, sandTarget a (storedOffset noise3D s a.time p.data) fallback = o := by
    intro fallback
    unfold sandTarget
    rw [hentry, hoff2]
    ext <;> simp [Vec3.add, Vec3.zero]
  have hvel : velocityAfterMouse a p.position p.data.velocity = p.data.velocity :=
    velocityAfterMouse_of_not_interaction a hmi _ _
  simp only [updateTraditionalParticle, hvis, hsand, if_true]
  rw [htarget, hvel]
  refine ⟨trivial, hamp, by rw [hoff2]; rfl, ?_, ?_⟩
  · refine ⟨?_, ?_, ?_⟩
    · rw [Vec3.smul_x, Vec3.add_x, Vec3.smul_x, Vec3.sub_x]
      ring
    · rw [Vec3.smul_y, Vec3.add_y, Vec3.smul_y, Vec3.sub_y]
      ring
    · rw [Vec3.smul_z, Vec3.add_z, Vec3.smul_z, Vec3.sub_z]
      ring
  · exact ⟨rfl, rfl, rfl⟩

/-- C7 (amended): with pointer interaction disabled, spring mode enabled,
zero procedural displacement (oscillator mode with amplitude 0 and a zero
stored z offset, as at creation), and the **default** `sandReturn = 1`, the
distance from a particle's position to its stored original position tends
to 0 over successive frames and its velocity magnitude tends to 0, for
every initial position and velocity — but the convergence is **not**
monotonic, and it does not hold for every positive `sandReturn`:
`claim_C7_counterexample` shows a frame that strictly increases the
distance at `sandReturn = 1` (nonzero initial velocity) and a frame that
strictly increases it from rest at `sandReturn = 100`. -/
theorem claim_C7 (noise3D : ℝ → ℝ → ℝ → ℝ) (s : UpdateSettings)
    (a : UpdateArgs) (p : Particle) (o : Vec3)
    (hs : s.noiseMovement = false) (hvis : p.visible = true)
    (hamp : p.data.amplitude = 0) (hoffz : p.data.offset.z = 0)
    (hmi : a.mouseInteraction = false) (hsand : a.sandEffect = true)
    (hret : a.sandReturn = 1) (hentry : a.originalPositionsEntry = some o) :
    Filter.Tendsto (fun n =>
        ((updateTraditionalParticle noise3D s a)^[n] p).position.distanceTo o)
      Filter.atTop (nhds 0) ∧
    Filter.Tendsto (fun n =>
        ((updateTraditionalParticle noise3D s a)^[n] p).data.velocity.length)
      Filter.atTop (nhds 0) := by
  have hinv : ∀ n,
      ((updateTraditionalParticle noise3D s a)^[n] p).visible = true ∧
      ((updateTraditionalParticle noise3D s a)^[n] p).data.amplitude = 0 ∧
      ((updateTraditionalParticle noise3D s a)^[n] p).data.offset.z = 0 := by
    intro n
    induction n with
    | zero => exact ⟨hvis, hamp, hoffz⟩
    | succ k ih =>
      rw [Function.iterate_succ_apply']
      obtain ⟨h1, h2, h3⟩ := ih
      obtain ⟨g1, g2, g3, -, -⟩ :=
        sand_step_fields noise3D s a o _ hs h1 h2 h3 hmi hsand hentry
      exact ⟨g1, g2, g3⟩
  obtain ⟨hEx, hVx⟩ := sand_seq_tendsto
    (fun n => ((updateTraditionalParticle noise3D s a)^[n] p).position.x - o.x)
    (fun n => ((updateTraditionalParticle noise3D s a)^[n] p).data.velocity.x)
    (fun n => by
      dsimp only
      obtain ⟨h1, h2, h3⟩ := hinv n
      have hsf := sand_step_fields noise3D s a o _ hs h1 h2 h3 hmi hsand hentry
      rw [Function.iterate_succ_apply']
      constructor
      · rw [hsf.2.2.2.1.1, hret]
        ring
      · rw [hsf.2.2.2.2.1]
        ring)
  obtain ⟨hEy, hVy⟩ := sand_seq_tendsto
    (fun n => ((updateTraditionalParticle noise3D s a)^[n] p).position.y - o.y)
    (fun n => ((updateTraditionalParticle noise3D s a)^[n] p).data.velocity.y)
    (fun n => by
      dsimp only
      obtain ⟨h1, h2, h3⟩ := hinv n
      have hsf := sand_step_fields noise3D s a o _ hs h1 h2 h3 hmi hsand hentry
      rw [Function.iterate_succ_apply']
      constructor
      · rw [hsf.2.2.2.1.2.1, hret]
        ring
      · rw [hsf.2.2.2.2.2.1]
        ring)
  obtain ⟨hEz, hVz⟩ := sand_seq_tendsto
    (fun n => ((updateTraditionalParticle noise3D s a)^[n] p).position.z - o.z)
    (fun n => ((updateTraditionalParticle noise3D s a)^[n] p).data.velocity.z)
    (fun n => by
      dsimp only
      obtain ⟨h1, h2, h3⟩ := hinv n
      have hsf := sand_step_fields noise3D s a o _ hs h1 h2 h3 hmi hsand hentry
      rw [Function.iterate_succ_apply']
      constructor
      · rw [hsf.2.2.2.1.2.2, hret]
        ring
      · rw [hsf.2.2.2.2.2.2]
        ring)
  constructor
  · have hsum : Filter.Tendsto (fun n =>
        (((updateTraditionalParticle noise3D s a)^[n] p).position.x - o.x) *
          (((updateTraditionalParticle noise3D s a)^[n] p).position.x - o.x) +
        (((updateTraditionalParticle noise3D s a)^[n] p).position.y - o.y) *
          (((updateTraditionalParticle noise3D s a)^[n] p).position.y - o.y) +
        (((updateTraditionalParticle noise3D s a)^[n] p).position.z - o.z) *
          (((updateTraditionalParticle noise3D s a)^[n] p).position.z - o.z))
        Filter.atTop (nhds 0) := by
      simpa using ((hEx.mul hEx).add (hEy.mul hEy)).add (hEz.mul hEz)
    have h : Filter.Tendsto (fun n => Real.sqrt (
        (((updateTraditionalParticle noise3D s a)^[n] p).position.x - o.x) *
          (((updateTraditionalParticle noise3D s a)^[n] p).position.x - o.x) +
        (((updateTraditionalParticle noise3D s a)^[n] p).position.y - o.y) *
          (((updateTraditionalParticle noise3D s a)^[n] p).position.y - o.y) +
        (((updateTraditionalParticle noise3D s a)^[n] p).position.z - o.z) *
          (((updateTraditionalParticle noise3D s a)^[n] p).position.z - o.z)))
        Filter.atTop (nhds (Real.sqrt 0)) :=
      (Real.continuous_sqrt.tendsto 0).comp hsum
    rw [Real.sqrt_zero] at h
    exact h
  · have hsum : Filter.Tendsto (fun n =>
        ((updateTraditionalParticle noise3D s a)^[n] p).data.velocity.x *
          ((updateTraditionalParticle noise3D s a)^[n] p).data.velocity.x +
        ((updateTraditionalParticle noise3D s a)^[n] p).data.velocity.y *
          ((updateTraditionalParticle noise3D s a)^[n] p).data.velocity.y +
        ((updateTraditionalParticle noise3D s a)^[n] p).data.velocity.z *
          ((updateTraditionalParticle noise3D s a)^[n] p).data.velocity.z)
        Filter.atTop (nhds 0) := by
      simpa using ((hVx.mul hVx).add (hVy.mul hVy)).add (hVz.mul hVz)
    have h : Filter.Tendsto (fun n => Real.sqrt (
        ((updateTraditionalParticle noise3D s a)^[n] p).data.velocity.x *
          ((updateTraditionalParticle noise3D s a)^[n] p).data.velocity.x +
        ((updateTraditionalParticle noise3D s a)^[n] p).data.velocity.y *
          ((updateTraditionalParticle noise3D s a)^[n] p).data.velocity.y +
        ((updateTraditionalParticle noise3D s a)^[n] p).data.velocity.z *
          ((updateTraditionalParticle noise3D s a)^[n] p).data.velocity.z))
        Filter.atTop (nhds (Real.sqrt 0)) :=
      (Real.continuous_sqrt.tendsto 0).comp hsum
    rw [Real.sqrt_zero] at h
    exact h

/-- Witness for C7: the spring-mode iteration on `springParticle` (starting
at (1,2,3) with zero velocity) under `sandArgs` converges to the origin. -/
theorem claim_C7_witness :
    oscSettings.noiseMovement = false ∧ springParticle.visible = true ∧
    springParticle.data.amplitude = 0 ∧ springParticle.data.offset.z = 0 ∧
    sandArgs.mouseInteraction = false ∧ sandArgs.sandEffect = true ∧
    sandArgs.sandReturn = 1 ∧ sandArgs.originalPositionsEntry = some Vec3.zero ∧
    (Filter.Tendsto (fun n =>
        ((updateTraditionalParticle noiseZero oscSettings sandArgs)^[n]
          springParticle).position.distanceTo Vec3.zero)
      Filter.atTop (nhds 0) ∧
    Filter.Tendsto (fun n =>
        ((updateTraditionalParticle noiseZero oscSettings sandArgs)^[n]
          springParticle).data.velocity.length)
      Filter.atTop (nhds 0)) :=
  ⟨rfl, rfl, rfl, rfl, rfl, rfl, rfl, rfl,
    claim_C7 noiseZero oscSettings sandArgs springParticle Vec3.zero
      rfl rfl rfl rfl rfl rfl rfl rfl⟩

/-- Counterexample to C7 as stated: the claimed *monotonic* decrease of the
distance for *every* initial state and positive `sandReturn` fails.  A
particle at its original position with velocity (1,0,0) moves to distance
0.95 after one frame at `sandReturn = 1`, and a particle at rest at
distance 1 jumps to distance 3.75 after one frame at `sandReturn = 100`. -/
theorem claim_C7_counterexample :
    kickedParticle.position.distanceTo Vec3.zero = 0 ∧
    (updateTraditionalParticle noiseZero oscSettings sandArgs
      kickedParticle).position.distanceTo Vec3.zero = 0.95 ∧
    ¬ ((0.95 : ℝ) ≤ 0) ∧
    restParticle.position.distanceTo Vec3.zero = 1 ∧
    (updateTraditionalParticle noiseZero oscSettings strongSandArgs
      restParticle).position.distanceTo Vec3.zero = 3.75 ∧
    ¬ ((3.75 : ℝ) ≤ 1) := by
  refine ⟨?_, ?_, by norm_num, ?_, ?_, by norm_num⟩
  · simp only [kickedParticle, Vec3.distanceTo, Vec3.sub, Vec3.length, Vec3.zero]
    norm_num [Real.sqrt_zero]
  · obtain ⟨-, -, -, ⟨hvx, hvy, hvz⟩, ⟨hpx, hpy, hpz⟩⟩ :=
      sand_step_fields noiseZero oscSettings sandArgs Vec3.zero kickedParticle
        rfl rfl rfl rfl rfl rfl rfl
    rw [show kickedParticle.data.velocity.x = 1 from rfl,
      show kickedParticle.position.x = 0 from rfl,
      show sandArgs.sandReturn = 1 from rfl,
      show Vec3.zero.x = 0 from rfl] at hvx
    rw [show kickedParticle.data.velocity.y = 0 from rfl,
      show kickedParticle.position.y = 0 from rfl,
      show sandArgs.sandReturn = 1 from rfl,
      show Vec3.zero.y = 0 from rfl] at hvy
    rw [show kickedParticle.data.velocity.z = 0 from rfl,
      show kickedParticle.position.z = 0 from rfl,
      show sandArgs.sandReturn = 1 from rfl,
      show Vec3.zero.z = 0 from rfl] at hvz
    norm_num at hvx hvy hvz
    rw [hvx, show kickedParticle.position.x = 0 from rfl] at hpx
    rw [hvy, show kickedParticle.position.y = 0 from rfl] at hpy
    rw [hvz, show kickedParticle.position.z = 0 from rfl] at hpz
    norm_num at hpx hpy hpz
    simp only [Vec3.distanceTo, Vec3.sub, Vec3.length, Vec3.zero]
    rw [hpx, hpy, hpz]
    exact sqrt_of_eq_sq _ 0.95 (by norm_num) (by norm_num)
  · simp only [restParticle, Vec3.distanceTo, Vec3.sub, Vec3.length, Vec3.zero]
    exact sqrt_of_eq_sq _ 1 (by norm_num) (by norm_num)
  · obtain ⟨-, -, -, ⟨hvx, hvy, hvz⟩, ⟨hpx, hpy, hpz⟩⟩ :=
      sand_step_fields noiseZero oscSettings strongSandArgs Vec3.zero restParticle
        rfl rfl rfl rfl rfl rfl rfl
    rw [show restParticle.data.velocity.x = 0 from rfl,
      show restParticle.position.x = 1 from rfl,
      show strongSandArgs.sandReturn = 100 from rfl,
      show Vec3.zero.x = 0 from rfl] at hvx
    rw [show restParticle.data.velocity.y = 0 from rfl,
      show restParticle.position.y = 0 from rfl,
      show strongSandArgs.sandReturn = 100 from rfl,
      show Vec3.zero.y = 0 from rfl] at hvy
    rw [show restParticle.data.velocity.z = 0 from rfl,
      show restParticle.position.z = 0 from rfl,
      show strongSandArgs.sandReturn = 100 from rfl,
      show Vec3.zero.z = 0 from rfl] at hvz
    norm_num at hvx hvy hvz
    rw [hvx, show restParticle.position.x = 1 from rfl] at hpx
    rw [hvy, show restParticle.position.y = 0 from rfl] at hpy
    rw [hvz, show restParticle.position.z = 0 from rfl] at hpz
    norm_num at hpx hpy hpz
    simp only [Vec3.distanceTo, Vec3.sub, Vec3.length, Vec3.zero]
    rw [hpx, hpy, hpz]
    exact sqrt_of_eq_sq _ 3.75 (by norm_num) (by norm_num)

end SvgGen
